import Mathlib

/-!
Verification of the Nexus-Zero incident-remediation core.

This file gives a shallow embedding of the approval-gated execution state
machine (`mcp-agents/executor-agent/main.py` together with the shared
database layer `mcp-agents/common/db_utils.py`) and of the mediator's
guardrail / risk-scoring logic (`mcp-agents/mediator-agent/main.py`).
The database is modelled as an explicit state record threaded through the
operations; every operation is a pure Lean function translated from the
Python source.  Timestamps are rationals measured in minutes; SQL numeric
values are rationals.
-/

namespace NexusZero

/-- Substring containment: `needle` occurs contiguously inside `hay`. -/
def containsStr (needle hay : String) : Prop :=
  ∃ p s, hay = p ++ (needle ++ s)

/-- The result payload produced by an action executor or written by
`update_audit_log`.  In the source this is a JSON object; we model the
union of the keys that the executor agent ever writes, each optional. -/
structure ExecResult where
  action : String := ""
  service : String := ""
  status : String := ""
  message : String := ""
  simulated : Bool := false
  target_revision : Option String := none
  direction : Option String := none
  factor : Option Nat := none
  config_key : Option String := none
  approved_by : Option String := none
  approved_at : Option ℚ := none
  emergency : Bool := false
  triggered_by : Option String := none
  executed_at : Option ℚ := none
  reason : Option String := none
  rejected_at : Option ℚ := none
deriving Repr, DecidableEq

/-- The `action_details` JSON payload: the union of the keys read by the
simulated executors (`target_revision`, `direction`, `factor`,
`config_key`, `old_value`, `new_value`) and by `approve_action`
(`service`). -/
structure ActionDetails where
  target_revision : Option String := none
  direction : Option String := none
  factor : Option Nat := none
  config_key : Option String := none
  old_value : Option String := none
  new_value : Option String := none
  service : Option String := none
deriving Repr, DecidableEq

/-- A row of the `audit_logs` table.  The fields `history` and the three
`_writes` counters are specification ghost fields: `history` records the
sequence of values the `status` column has held (creation status first),
and each `_writes` counter counts how many times `update_audit_log` has
assigned the corresponding column.  They are not columns of the schema
and no operation branches on them. -/
structure AuditEntry where
  incident_id : Option Nat := none
  agent_name : String := ""
  action_type : String := ""
  action_details : ActionDetails := {}
  status : String := "pending"
  result : Option ExecResult := none
  error_message : Option String := none
  human_approved : Bool := false
  approved_by : Option String := none
  created_at : ℚ := 0
  approved_at : Option ℚ := none
  completed_at : Option ℚ := none
  history : List String := []
  result_writes : Nat := 0
  approved_by_writes : Nat := 0
  completed_at_writes : Nat := 0
deriving Repr, DecidableEq

/-- A row of the `incidents` table (the fields the executor and mediator
agents read). -/
structure Incident where
  service_name : String := ""
  severity : String := ""
  status : String := "open"
  affected_service : Option String := none
  title : String := ""
deriving Repr, DecidableEq

/-- A row of the append-only `config_changes` table. -/
structure ConfigChange where
  service_name : String := ""
  change_type : String := ""
  old_value : Option String := none
  new_value : Option String := none
  changed_by : Option String := none
  change_reason : Option String := none
  related_incident_id : Option Nat := none
deriving Repr, DecidableEq

/-- The persistent store: tables keyed by integer primary key, plus the
sequence counter for `audit_logs.id`. -/
structure DB where
  audit_logs : List (Nat × AuditEntry) := []
  incidents : List (Nat × Incident) := []
  config_changes : List ConfigChange := []
  next_audit_id : Nat := 1
deriving Repr, DecidableEq

/-- `SELECT ... WHERE id = %s` on a keyed table (first matching row). -/
def alookup {α : Type} (i : Nat) : List (Nat × α) → Option α
  | [] => none
  | (j, e) :: t => if j = i then some e else alookup i t

/-- `UPDATE ... WHERE id = %s` on a keyed table. -/
def aupdate {α : Type} (i : Nat) (f : α → α) : List (Nat × α) → List (Nat × α)
  | [] => []
  | p :: t => (p.1, if p.1 = i then f p.2 else p.2) :: aupdate i f t

/-- The row image of the single UPDATE performed by `update_audit_log`:
it assigns `status`, `result`, `error_message`, `human_approved`,
`approved_by`, `approved_at` and `completed_at` unconditionally (columns
not supplied by the caller are overwritten with their defaults, `result`
with NULL; `completed_at` is set to NOW() on every call). -/
def audit_update_fun (status : String) (result : Option ExecResult)
    (error_message : Option String) (human_approved : Bool)
    (approved_by : Option String) (now : ℚ) (e : AuditEntry) : AuditEntry :=
  { e with
    status := status
    result := result
    error_message := error_message
    human_approved := human_approved
    approved_by := approved_by
    approved_at := if human_approved then some now else none
    completed_at := some now
    history := e.history ++ [status]
    result_writes := e.result_writes + 1
    approved_by_writes := e.approved_by_writes + 1
    completed_at_writes := e.completed_at_writes + 1 }

/-- `update_audit_log` from `common/db_utils.py`. -/
def update_audit_log (db : DB) (audit_id : Nat) (status : String)
    (result : Option ExecResult) (error_message : Option String)
    (human_approved : Bool) (approved_by : Option String) (now : ℚ) : DB :=
  { db with audit_logs :=
      (aupdate audit_id
        (audit_update_fun status result error_message human_approved approved_by now)
        db.audit_logs) }

/-- `create_audit_log` from `common/db_utils.py` (the caller supplies the
`status`; the Python default is `"pending"`). -/
def create_audit_log (db : DB) (agent_name action_type : String)
    (action_details : ActionDetails) (incident_id : Option Nat)
    (status : String) (now : ℚ) : Nat × DB :=
  let i := db.next_audit_id
  (i, { db with
        audit_logs := db.audit_logs ++
          [(i, { incident_id := incident_id
                 agent_name := agent_name
                 action_type := action_type
                 action_details := action_details
                 status := status
                 created_at := now
                 history := [status] })]
        next_audit_id := i + 1 })

/-- `update_incident` from `common/db_utils.py`, restricted to the one
field that the executor flows pass and that survives the
`allowed_fields` filter: `status` (`resolution_notes` is not in
`allowed_fields` and is dropped by the filter). -/
def update_incident (db : DB) (incident_id : Nat) (status : String) : DB :=
  { db with incidents :=
      aupdate incident_id (fun i => { i with status := status }) db.incidents }

/-- `record_config_change` from `common/db_utils.py`: appends a row to
`config_changes`. -/
def record_config_change (db : DB) (service_name change_type : String)
    (old_value new_value : Option String) (changed_by : Option String) : DB :=
  { db with config_changes := db.config_changes ++
      [{ service_name := service_name
         change_type := change_type
         old_value := old_value
         new_value := new_value
         changed_by := changed_by }] }

/-! Executor agent (`mcp-agents/executor-agent/main.py`). -/

/-- `APPROVAL_TIMEOUT_MINUTES` constant of the executor agent. -/
def APPROVAL_TIMEOUT_MINUTES : ℚ := 30

/-- `ALLOWED_ACTION_TYPES` constant of the executor agent. -/
def ALLOWED_ACTION_TYPES : List String :=
  ["rollback", "scale", "restart", "config_change", "custom"]

/-- `_simulate_rollback`. -/
def simulate_rollback (service_name : String) (details : ActionDetails) : ExecResult :=
  let target_revision := details.target_revision.getD "previous"
  { action := "rollback"
    service := service_name
    target_revision := some target_revision
    status := "completed"
    message := "Traffic for " ++ service_name ++ " shifted to revision " ++
      (target_revision ++ ". New instances are healthy.")
    simulated := true }

/-- `_simulate_scale`. -/
def simulate_scale (service_name : String) (details : ActionDetails) : ExecResult :=
  let direction := details.direction.getD "up"
  let factor := details.factor.getD 2
  { action := "scale"
    service := service_name
    direction := some direction
    factor := some factor
    status := "completed"
    message := "Scaled " ++ service_name ++ " " ++ direction ++ " by factor " ++
      (toString factor ++ ". Instance count updated.")
    simulated := true }

/-- `_simulate_restart`. -/
def simulate_restart (service_name : String) (_details : ActionDetails) : ExecResult :=
  { action := "restart"
    service := service_name
    status := "completed"
    message := "Service " ++ service_name ++ " restarted with a fresh revision."
    simulated := true }

/-- `_simulate_config_change`. -/
def simulate_config_change (service_name : String) (details : ActionDetails) : ExecResult :=
  let config_key := details.config_key.getD "UNKNOWN"
  { action := "config_change"
    service := service_name
    config_key := some config_key
    status := "completed"
    message := "Config " ++ config_key ++ " updated on " ++ (service_name ++ ".")
    simulated := true }

/-- The `ACTION_EXECUTORS` string-keyed dispatch table;
`none` corresponds to a key miss (custom / unknown action type). -/
def action_executor_for (action_type : String) :
    Option (String → ActionDetails → ExecResult) :=
  if action_type = "rollback" then some simulate_rollback
  else if action_type = "scale" then some simulate_scale
  else if action_type = "restart" then some simulate_restart
  else if action_type = "config_change" then some simulate_config_change
  else none

/-- Responses returned by the executor tools (the source returns JSON
objects; an `err` carries the text under the `error` key). -/
inductive Resp where
  | err (msg : String)
  | approved_ok (audit_log_id : Nat) (incident_id : Nat) (result : ExecResult)
  | reject_ok (audit_log_id : Nat) (reason : String)
  | emergency_ok (audit_log_id : Nat) (incident_id : Nat) (result : ExecResult)
  | listing (pending_count : Nat) (actions : List (Nat × AuditEntry × Incident × ℚ))
deriving Repr, DecidableEq

/-- `approve_action` from the executor agent.  The initial SELECT joins
`audit_logs` with `incidents` on `incident_id`, so an entry with a NULL
or dangling `incident_id` yields no row and the not-found error. -/
def approve_action (db : DB) (audit_log_id : Nat) (approved_by : String)
    (now : ℚ) : DB × Resp :=
  match alookup audit_log_id db.audit_logs with
  | none => (db, .err ("Audit log " ++ (toString audit_log_id ++ " not found.")))
  | some e =>
    match e.incident_id with
    | none => (db, .err ("Audit log " ++ (toString audit_log_id ++ " not found.")))
    | some iid =>
      match alookup iid db.incidents with
      | none => (db, .err ("Audit log " ++ (toString audit_log_id ++ " not found.")))
      | some inc =>
        if e.status ≠ "pending_approval" then
          (db, .err ("Action " ++ toString audit_log_id ++ " has status " ++
            (e.status ++ " — only pending_approval actions can be approved.")))
        else
          -- Mark as executing
          let db1 := update_audit_log db audit_log_id "executing" none none false none now
          let details := e.action_details
          -- action["affected_service"] or details.get("service", "unknown")
          let service_name :=
            match inc.affected_service with
            | some s => if s = "" then details.service.getD "unknown" else s
            | none => details.service.getD "unknown"
          let action_type := e.action_type
          -- Execute the action (custom fall-through when the table misses)
          let result0 :=
            match action_executor_for action_type with
            | some ex => ex service_name details
            | none =>
              { action := action_type
                service := service_name
                status := "completed"
                message := "Custom action " ++ (action_type ++ " executed.")
                simulated := true }
          let result := { result0 with
            approved_by := some approved_by
            approved_at := some now }
          -- Record config change if applicable
          let db2 :=
            if action_type = "config_change" then
              record_config_change db1 service_name "env_var"
                details.old_value details.new_value
                (some ("executor-agent (approved by " ++ (approved_by ++ ")")))
            else db1
          -- Update audit log with result, then the incident status
          let db3 := update_audit_log db2 audit_log_id "completed" (some result)
            none false none now
          let db4 := update_incident db3 iid "mitigated"
          (db4, .approved_ok audit_log_id iid result)

/-- `reject_action` from the executor agent (its SELECT does not join
`incidents`). -/
def reject_action (db : DB) (audit_log_id : Nat) (reason : String)
    (now : ℚ) : DB × Resp :=
  match alookup audit_log_id db.audit_logs with
  | none => (db, .err ("Audit log " ++ (toString audit_log_id ++ " not found.")))
  | some e =>
    if e.status ≠ "pending_approval" then
      (db, .err ("Action " ++ toString audit_log_id ++ " has status " ++
        (e.status ++ " — only pending_approval actions can be rejected.")))
    else
      let db1 := update_audit_log db audit_log_id "rejected"
        (some { reason := some reason, rejected_at := some now })
        none false none now
      (db1, .reject_ok audit_log_id reason)

/-- `execute_emergency_action` from the executor agent. -/
def execute_emergency_action (db : DB) (incident_id : Nat)
    (action_type service_name : String) (action_details : ActionDetails)
    (operator : String) (now : ℚ) : DB × Resp :=
  if action_type ∉ ALLOWED_ACTION_TYPES then
    (db, .err ("Unknown action_type " ++ (action_type ++
      ". Allowed: [config_change, custom, restart, rollback, scale]")))
  else
    match alookup incident_id db.incidents with
    | none => (db, .err ("Incident " ++ (toString incident_id ++ " not found.")))
    | some inc =>
      if inc.severity ≠ "critical" then
        (db, .err ("Emergency execution requires severity=critical, but incident " ++
          toString incident_id ++ " has severity=" ++
          (inc.severity ++ ". Use the normal approve_action flow instead.")))
      else
        -- Create audit log entry (skip pending, go straight to executing)
        let created := create_audit_log db "executor-agent" action_type
          action_details (some incident_id) "executing" now
        let audit_id := created.1
        let db1 := created.2
        -- Execute immediately
        let result0 :=
          match action_executor_for action_type with
          | some ex => ex service_name action_details
          | none =>
            { action := action_type
              service := service_name
              status := "completed"
              message := "Emergency custom action " ++ (action_type ++ " executed.")
              simulated := true }
        let result := { result0 with
          emergency := true
          triggered_by := some operator
          executed_at := some now }
        let db2 := update_audit_log db1 audit_id "completed" (some result)
          none false none now
        let db3 := update_incident db2 incident_id "mitigated"
        (db3, .emergency_ok audit_id incident_id result)

/-- The JOIN + WHERE of `_get_pending_actions`: audit entries in status
`pending_approval` whose `incident_id` joins an existing incident,
optionally filtered by incident (Python truthiness: a filter of `0` is
falsy and means no filter). -/
def pending_rows (db : DB) (incident_id : Option Nat) :
    List (Nat × AuditEntry × Incident) :=
  let rows := db.audit_logs.filterMap (fun p =>
    match p.2.incident_id with
    | none => none
    | some iid =>
      match alookup iid db.incidents with
      | none => none
      | some inc =>
        if p.2.status = "pending_approval" then some (p.1, p.2, inc) else none)
  match incident_id with
  | some i => if i ≠ 0 then rows.filter (fun r => r.2.1.incident_id = some i) else rows
  | none => rows

/-- `_get_pending_actions`: the joined pending rows ordered by
`created_at` ascending. -/
def pending_actions (db : DB) (incident_id : Option Nat) :
    List (Nat × AuditEntry × Incident) :=
  (pending_rows db incident_id).insertionSort
    (fun a b => a.2.1.created_at ≤ b.2.1.created_at)

/-- The result row the sweep writes when auto-rejecting an expired entry. -/
def sweep_reject_result : ExecResult :=
  { reason := some "auto-rejected: approval timeout exceeded" }

/-- One iteration of the auto-reject loop in `get_pending_approvals`:
an entry older than `APPROVAL_TIMEOUT_MINUTES` is auto-rejected
(`status = rejected`, the reason recorded under `result`, no
`error_message`); otherwise the store is untouched. -/
def sweep_step (now : ℚ) (d : DB) (r : Nat × AuditEntry × Incident) : DB :=
  if now - r.2.1.created_at > APPROVAL_TIMEOUT_MINUTES then
    update_audit_log d r.1 "rejected" (some sweep_reject_result)
      none false none now
  else d

/-- `get_pending_approvals` from the executor agent: lists pending
actions, auto-rejecting (status `rejected`, reason in `result`) every one
older than `APPROVAL_TIMEOUT_MINUTES`; younger entries are returned with
their age in minutes. -/
def get_pending_approvals (db : DB) (incident_id : Option Nat) (now : ℚ) :
    DB × Resp :=
  let pending := pending_actions db incident_id
  if pending = [] then (db, .listing 0 [])
  else
    let db2 := pending.foldl (sweep_step now) db
    let active := pending.filterMap (fun r =>
      if now - r.2.1.created_at > APPROVAL_TIMEOUT_MINUTES then none
      else some (r.1, r.2.1, r.2.2, now - r.2.1.created_at))
    (db2, .listing active.length active)

/-! Basic lemmas about the keyed-table operations. -/

theorem alookup_aupdate_self {α : Type} (i : Nat) (f : α → α)
    (l : List (Nat × α)) :
    alookup i (aupdate i f l) = (alookup i l).map f := by
  induction l with
  | nil => rfl
  | cons p t ih =>
    obtain ⟨j, e⟩ := p
    simp only [aupdate, alookup]
    by_cases h : j = i
    · subst h
      simp
    · simp [h, ih]

theorem alookup_aupdate_ne {α : Type} (i j : Nat) (f : α → α)
    (l : List (Nat × α)) (hij : j ≠ i) :
    alookup j (aupdate i f l) = alookup j l := by
  induction l with
  | nil => rfl
  | cons p t ih =>
    obtain ⟨k, e⟩ := p
    simp only [aupdate, alookup]
    by_cases h : k = j
    · subst h
      simp [hij]
    · simp [h, ih]

theorem alookup_append_of_none {α : Type} (i : Nat) (l l2 : List (Nat × α))
    (h : alookup i l = none) : alookup i (l ++ l2) = alookup i l2 := by
  induction l with
  | nil => rfl
  | cons p t ih =>
    obtain ⟨j, e⟩ := p
    by_cases hj : j = i
    · simp [alookup, hj] at h
    · simp only [alookup, if_neg hj] at h
      simp only [List.cons_append, alookup, if_neg hj]
      exact ih h

theorem alookup_mem {α : Type} {i : Nat} {e : α} {l : List (Nat × α)}
    (h : alookup i l = some e) : (i, e) ∈ l := by
  induction l with
  | nil => simp [alookup] at h
  | cons p t ih =>
    obtain ⟨j, x⟩ := p
    by_cases hj : j = i
    · subst hj
      rw [alookup, if_pos rfl] at h
      injection h with h2
      subst h2
      exact List.mem_cons_self _ _
    · rw [alookup, if_neg hj] at h
      exact List.mem_cons_of_mem _ (ih h)

theorem alookup_of_mem_nodup {α : Type} {i : Nat} {e : α} {l : List (Nat × α)}
    (hnd : (l.map Prod.fst).Nodup) (h : (i, e) ∈ l) : alookup i l = some e := by
  induction l with
  | nil => simp at h
  | cons p t ih =>
    obtain ⟨j, x⟩ := p
    simp only [List.map_cons, List.nodup_cons] at hnd
    rcases List.mem_cons.mp h with h1 | h1
    · cases h1
      simp [alookup]
    · have hji : j ≠ i := by
        intro hji
        subst hji
        exact hnd.1 (List.mem_map.mpr ⟨(j, e), h1, rfl⟩)
      simp only [alookup, if_neg hji]
      exact ih hnd.2 h1

theorem audit_logs_update_incident (db : DB) (i : Nat) (st : String) :
    (update_incident db i st).audit_logs = db.audit_logs := rfl

theorem config_changes_update_incident (db : DB) (i : Nat) (st : String) :
    (update_incident db i st).config_changes = db.config_changes := rfl

theorem incidents_update_audit_log (db : DB) (i : Nat) (st : String)
    (r : Option ExecResult) (em : Option String) (ha : Bool)
    (ab : Option String) (now : ℚ) :
    (update_audit_log db i st r em ha ab now).incidents = db.incidents := rfl

theorem config_changes_update_audit_log (db : DB) (i : Nat) (st : String)
    (r : Option ExecResult) (em : Option String) (ha : Bool)
    (ab : Option String) (now : ℚ) :
    (update_audit_log db i st r em ha ab now).config_changes = db.config_changes := rfl

theorem audit_logs_record_config_change (db : DB) (s t : String)
    (o n : Option String) (b : Option String) :
    (record_config_change db s t o n b).audit_logs = db.audit_logs := rfl

theorem incidents_record_config_change (db : DB) (s t : String)
    (o n : Option String) (b : Option String) :
    (record_config_change db s t o n b).incidents = db.incidents := rfl

theorem audit_logs_ite_record (c : Prop) [Decidable c] (d : DB) (s t : String)
    (o n : Option String) (b : Option String) :
    (if c then record_config_change d s t o n b else d).audit_logs =
      d.audit_logs := by
  split <;> rfl

theorem incidents_ite_record (c : Prop) [Decidable c] (d : DB) (s t : String)
    (o n : Option String) (b : Option String) :
    (if c then record_config_change d s t o n b else d).incidents =
      d.incidents := by
  split <;> rfl

/-! Shared concrete fixtures for witnesses and counterexamples. -/

/-- A concrete incident used by the witnesses. -/
def inc_high : Incident :=
  { service_name := "payment-api"
    severity := "high"
    status := "open"
    affected_service := some "payment-api"
    title := "Payment API errors" }

/-- A concrete critical incident used by the witnesses. -/
def inc_critical : Incident :=
  { service_name := "order-api"
    severity := "critical"
    status := "open"
    affected_service := some "order-api"
    title := "Order API outage" }

/-- A concrete audit entry in terminal status `rejected`, linked to
incident 7. -/
def entry_rejected : AuditEntry :=
  { incident_id := some 7
    agent_name := "detective"
    action_type := "rollback"
    status := "rejected"
    created_at := 0
    history := ["pending_approval", "rejected"] }

/-- A concrete audit entry still pending approval, linked to incident 7. -/
def entry_pending : AuditEntry :=
  { incident_id := some 7
    agent_name := "detective"
    action_type := "rollback"
    status := "pending_approval"
    created_at := 0
    history := ["pending_approval"] }

/-- Database fixture: one rejected entry (id 3) and its incident (id 7). -/
def db_rejected : DB :=
  { audit_logs := [(3, entry_rejected)]
    incidents := [(7, inc_high)]
    next_audit_id := 4 }

/-- Database fixture: one pending entry (id 3) and its incident (id 7). -/
def db_pending : DB :=
  { audit_logs := [(3, entry_pending)]
    incidents := [(7, inc_high)]
    next_audit_id := 4 }

/-- C1, corrected.  For an audit entry whose status is not
`pending_approval`, `reject_action` always fails with an invalid-state
error naming the actual status and leaves the store untouched, and
`approve_action` does so provided the entry's `incident_id` joins an
existing incident (the amendment forced by `c1_counterexample`: the
approval SELECT joins `incidents`, so a non-pending entry with a NULL
`incident_id` is reported as not found instead). -/
theorem c1_theorem (db : DB) (audit_log_id : Nat) (approved_by reason : String)
    (now : ℚ) (e : AuditEntry)
    (he : alookup audit_log_id db.audit_logs = some e)
    (hst : e.status ≠ "pending_approval") :
    ((reject_action db audit_log_id reason now).1 = db ∧
      ∃ m, (reject_action db audit_log_id reason now).2 = .err m ∧
        containsStr e.status m) ∧
    (∀ iid inc, e.incident_id = some iid →
      alookup iid db.incidents = some inc →
      (approve_action db audit_log_id approved_by now).1 = db ∧
        ∃ m, (approve_action db audit_log_id approved_by now).2 = .err m ∧
          containsStr e.status m) := by
  constructor
  · simp only [reject_action, he]
    rw [if_pos hst]
    exact ⟨rfl, _, rfl, _, _, rfl⟩
  · intro iid inc hiid hinc
    simp only [approve_action, he, hiid, hinc]
    rw [if_pos hst]
    exact ⟨rfl, _, rfl, _, _, rfl⟩

/-- C1 witness: the theorem applied to the rejected-entry fixture, so
in particular `approve_action` on a rejected entry surfaces an error
mentioning `rejected`. -/
theorem c1_witness :
    (alookup 3 db_rejected.audit_logs = some entry_rejected ∧
      entry_rejected.status ≠ "pending_approval") ∧
    (((reject_action db_rejected 3 "no thanks" 5).1 = db_rejected ∧
      ∃ m, (reject_action db_rejected 3 "no thanks" 5).2 = .err m ∧
        containsStr entry_rejected.status m) ∧
    (∀ iid inc, entry_rejected.incident_id = some iid →
      alookup iid db_rejected.incidents = some inc →
      (approve_action db_rejected 3 "alice" 5).1 = db_rejected ∧
        ∃ m, (approve_action db_rejected 3 "alice" 5).2 = .err m ∧
          containsStr entry_rejected.status m)) :=
  ⟨⟨by decide, by decide⟩,
    c1_theorem db_rejected 3 "alice" "no thanks" 5 entry_rejected
      (by decide) (by decide)⟩

/-- C1 counterexample: an entry in status `rejected` whose `incident_id`
is NULL.  The claim says `approve_action` fails with an invalid-state
error naming the status `rejected`; the code instead reports the entry
as not found, with an error that does not mention `rejected`. -/
theorem c1_counterexample :
    (approve_action
        { audit_logs := [(3, { entry_rejected with incident_id := none })]
          incidents := []
          next_audit_id := 4 } 3 "alice" 5).2 =
      .err "Audit log 3 not found." ∧
    ¬ containsStr "rejected" "Audit log 3 not found." := by
  constructor
  · rfl
  · intro h
    obtain ⟨p, s, hps⟩ := h
    have hd : "Audit log 3 not found.".data =
        p.data ++ ("rejected".data ++ s.data) := by
      rw [hps]
      simp [String.data_append]
    have hinf : "rejected".data <:+: "Audit log 3 not found.".data :=
      ⟨p.data, s.data, by rw [hd, List.append_assoc]⟩
    revert hinf
    decide

/-- C6: when `approve_action` succeeds on a pending entry, the entry
reaches status `completed` with the execution result recorded, and the
linked incident is transitioned to `mitigated` in the same operation. -/
theorem c6_theorem (db : DB) (audit_log_id iid : Nat) (approved_by : String)
    (now : ℚ) (e : AuditEntry) (inc : Incident)
    (he : alookup audit_log_id db.audit_logs = some e)
    (hst : e.status = "pending_approval")
    (hiid : e.incident_id = some iid)
    (hinc : alookup iid db.incidents = some inc) :
    ∃ r e2,
      (approve_action db audit_log_id approved_by now).2 =
        .approved_ok audit_log_id iid r ∧
      alookup audit_log_id
        (approve_action db audit_log_id approved_by now).1.audit_logs = some e2 ∧
      e2.status = "completed" ∧
      e2.result = some r ∧
      e2.completed_at = some now ∧
      alookup iid (approve_action db audit_log_id approved_by now).1.incidents =
        some { inc with status := "mitigated" } := by
  simp only [approve_action, he, hiid, hinc]
  rw [if_neg (fun hne => hne hst)]
  simp only [update_incident, audit_logs_update_incident,
    incidents_update_audit_log, audit_logs_ite_record, incidents_ite_record,
    update_audit_log, alookup_aupdate_self, he, hinc, Option.map_some']
  exact ⟨_, _, rfl, rfl, rfl, rfl, rfl, trivial⟩

/-- C6 witness: the theorem applied to the pending-entry fixture. -/
theorem c6_witness :
    (alookup 3 db_pending.audit_logs = some entry_pending ∧
      entry_pending.status = "pending_approval" ∧
      entry_pending.incident_id = some 7 ∧
      alookup 7 db_pending.incidents = some inc_high) ∧
    (∃ r e2,
      (approve_action db_pending 3 "alice" 5).2 = .approved_ok 3 7 r ∧
      alookup 3 (approve_action db_pending 3 "alice" 5).1.audit_logs = some e2 ∧
      e2.status = "completed" ∧
      e2.result = some r ∧
      e2.completed_at = some (5 : ℚ) ∧
      alookup 7 (approve_action db_pending 3 "alice" 5).1.incidents =
        some { inc_high with status := "mitigated" }) :=
  ⟨⟨by decide, by decide, by decide, by decide⟩,
    c6_theorem db_pending 3 7 "alice" 5 entry_pending inc_high
      (by decide) (by decide) (by decide) (by decide)⟩

theorem containsStr_append_left {n h : String} (s : String)
    (hc : containsStr n h) : containsStr n (h ++ s) := by
  obtain ⟨p, q, hp⟩ := hc
  exact ⟨p, q ++ s, by rw [hp, String.append_assoc, String.append_assoc]⟩

theorem containsStr_append_right {n h : String} (p : String)
    (hc : containsStr n h) : containsStr n (p ++ h) := by
  obtain ⟨q, s, hq⟩ := hc
  exact ⟨p ++ q, s, by rw [hq, String.append_assoc]⟩

/-- C2: `execute_emergency_action` on any allowed action type fails with
the policy-violation error (naming both the actual severity and the
required `critical`) and leaves the store untouched whenever the target
incident's severity is not `critical`; when the severity is `critical`
it creates the audit entry directly in status `executing` (its status
history is exactly `[executing, completed]`, never `pending_approval`)
and the execution result is tagged `emergency = true`. -/
theorem c2_theorem (db : DB) (incident_id : Nat)
    (action_type service_name operator : String) (details : ActionDetails)
    (now : ℚ) (inc : Incident)
    (hmem : action_type ∈ ALLOWED_ACTION_TYPES)
    (hinc : alookup incident_id db.incidents = some inc)
    (hfresh : alookup db.next_audit_id db.audit_logs = none) :
    (inc.severity ≠ "critical" →
      (execute_emergency_action db incident_id action_type service_name
          details operator now).1 = db ∧
      ∃ m, (execute_emergency_action db incident_id action_type service_name
          details operator now).2 = .err m ∧
        containsStr inc.severity m ∧ containsStr "critical" m) ∧
    (inc.severity = "critical" →
      ∃ r e2,
        (execute_emergency_action db incident_id action_type service_name
            details operator now).2 =
          .emergency_ok db.next_audit_id incident_id r ∧
        r.emergency = true ∧
        alookup db.next_audit_id
          (execute_emergency_action db incident_id action_type service_name
            details operator now).1.audit_logs = some e2 ∧
        e2.history = ["executing", "completed"] ∧
        e2.status = "completed" ∧
        "pending_approval" ∉ e2.history) := by
  constructor
  · intro hsev
    simp only [execute_emergency_action, hinc]
    rw [if_neg (fun h => h hmem), if_pos hsev]
    refine ⟨rfl, _, rfl, ⟨_, _, rfl⟩, ?_⟩
    refine containsStr_append_left _ (containsStr_append_left _
      (containsStr_append_left _ ?_))
    exact ⟨"Emergency execution requires severity=", ", but incident ", by decide⟩
  · intro hsev
    simp only [execute_emergency_action, hinc]
    rw [if_neg (fun h => h hmem), if_neg (fun h => h hsev)]
    simp only [create_audit_log, update_audit_log, audit_update_fun,
      audit_logs_update_incident, alookup_aupdate_self]
    rw [alookup_append_of_none _ _ _ hfresh]
    simp only [alookup, if_pos rfl, Option.map_some']
    exact ⟨_, _, rfl, rfl, rfl, rfl, rfl, by simp [audit_update_fun]⟩

/-- Database fixture: one non-critical incident (id 7) and one critical
incident (id 9), no audit entries yet. -/
def db_two_incidents : DB :=
  { audit_logs := []
    incidents := [(7, inc_high), (9, inc_critical)]
    config_changes := []
    next_audit_id := 1 }

/-- C2 witness: the theorem applied to `db_two_incidents`, on the
non-critical incident for the first part and the critical one for the
second. -/
theorem c2_witness :
    (("restart" : String) ∈ ALLOWED_ACTION_TYPES ∧
      alookup 7 db_two_incidents.incidents = some inc_high ∧
      alookup db_two_incidents.next_audit_id db_two_incidents.audit_logs = none ∧
      inc_high.severity ≠ "critical" ∧
      alookup 9 db_two_incidents.incidents = some inc_critical ∧
      inc_critical.severity = "critical") ∧
    (∃ m, (execute_emergency_action db_two_incidents 7 "restart" "payment-api"
        {} "oncall" 0).2 = .err m ∧
      containsStr inc_high.severity m ∧ containsStr "critical" m) ∧
    (∃ r e2,
      (execute_emergency_action db_two_incidents 9 "rollback" "order-api"
        {} "oncall" 0).2 = .emergency_ok db_two_incidents.next_audit_id 9 r ∧
      r.emergency = true ∧
      alookup db_two_incidents.next_audit_id
        (execute_emergency_action db_two_incidents 9 "rollback" "order-api"
          {} "oncall" 0).1.audit_logs = some e2 ∧
      e2.history = ["executing", "completed"] ∧
      e2.status = "completed" ∧
      "pending_approval" ∉ e2.history) :=
  ⟨⟨by decide, by decide, by decide, by decide, by decide, by decide⟩,
   ((c2_theorem db_two_incidents 7 "restart" "payment-api" "oncall" {} 0 inc_high
      (by decide) (by decide) (by decide)).1 (by decide)).2,
   (c2_theorem db_two_incidents 9 "rollback" "order-api" "oncall" {} 0 inc_critical
      (by decide) (by decide) (by decide)).2 (by decide)⟩

/-- C8, corrected.  A ConfigChange record is written when an approved
`config_change` action executes through the normal approval gate, but
the emergency bypass executes `config_change` actions without writing
any ConfigChange record (the amendment forced by `c8_counterexample`:
the claim asserted the record is written on both paths). -/
theorem c8_theorem (db : DB) (audit_log_id iid incident_id : Nat)
    (approved_by service_name operator : String) (details : ActionDetails)
    (now : ℚ) (e : AuditEntry) (inc inc2 : Incident)
    (he : alookup audit_log_id db.audit_logs = some e)
    (hst : e.status = "pending_approval")
    (hiid : e.incident_id = some iid)
    (hinc : alookup iid db.incidents = some inc)
    (hc : e.action_type = "config_change")
    (hmem : ("config_change" : String) ∈ ALLOWED_ACTION_TYPES)
    (hinc2 : alookup incident_id db.incidents = some inc2)
    (hsev : inc2.severity = "critical") :
    (∃ cc,
      (approve_action db audit_log_id approved_by now).1.config_changes =
        db.config_changes ++ [cc] ∧
      cc.change_type = "env_var" ∧
      cc.old_value = e.action_details.old_value ∧
      cc.new_value = e.action_details.new_value ∧
      cc.changed_by =
        some ("executor-agent (approved by " ++ (approved_by ++ ")"))) ∧
    (execute_emergency_action db incident_id "config_change" service_name
        details operator now).1.config_changes = db.config_changes := by
  constructor
  · simp only [approve_action, he, hiid, hinc]
    rw [if_neg (fun hne => hne hst)]
    simp only [config_changes_update_incident, config_changes_update_audit_log]
    rw [if_pos hc]
    simp only [record_config_change, config_changes_update_audit_log]
    exact ⟨_, rfl, rfl, rfl, rfl, rfl⟩
  · simp only [execute_emergency_action, hinc2]
    rw [if_neg (fun h => h hmem), if_neg (fun h => h hsev)]
    rfl

/-- A pending `config_change` entry (id 3) linked to incident 7. -/
def entry_pending_config : AuditEntry :=
  { entry_pending with
    action_type := "config_change"
    action_details :=
      { config_key := some "TIMEOUT_MS"
        old_value := some "1000"
        new_value := some "30000" } }

/-- Database fixture: a pending `config_change` entry plus a high and a
critical incident. -/
def db_pending_config : DB :=
  { audit_logs := [(3, entry_pending_config)]
    incidents := [(7, inc_high), (9, inc_critical)]
    config_changes := []
    next_audit_id := 4 }

/-- C8 witness: the theorem applied to `db_pending_config`. -/
theorem c8_witness :
    (alookup 3 db_pending_config.audit_logs = some entry_pending_config ∧
      entry_pending_config.status = "pending_approval" ∧
      entry_pending_config.incident_id = some 7 ∧
      alookup 7 db_pending_config.incidents = some inc_high ∧
      entry_pending_config.action_type = "config_change" ∧
      ("config_change" : String) ∈ ALLOWED_ACTION_TYPES ∧
      alookup 9 db_pending_config.incidents = some inc_critical ∧
      inc_critical.severity = "critical") ∧
    ((∃ cc,
      (approve_action db_pending_config 3 "alice" 5).1.config_changes =
        db_pending_config.config_changes ++ [cc] ∧
      cc.change_type = "env_var" ∧
      cc.old_value = entry_pending_config.action_details.old_value ∧
      cc.new_value = entry_pending_config.action_details.new_value ∧
      cc.changed_by = some ("executor-agent (approved by " ++ ("alice" ++ ")"))) ∧
    (execute_emergency_action db_pending_config 9 "config_change" "order-api"
        {} "oncall" 5).1.config_changes = db_pending_config.config_changes) :=
  ⟨⟨by decide, by decide, by decide, by decide, by decide, by decide,
    by decide, by decide⟩,
   c8_theorem db_pending_config 3 7 9 "alice" "order-api" "oncall" {} 5
     entry_pending_config inc_high inc_critical (by decide) (by decide)
     (by decide) (by decide) (by decide) (by decide) (by decide) (by decide)⟩

/-- C8 counterexample: an emergency `config_change` execution on a
critical incident succeeds but writes no ConfigChange record — the
`config_changes` table is still empty afterwards, refuting the claim
that every approved `config_change` execution (including the emergency
bypass) writes one. -/
theorem c8_counterexample :
    (∃ r, (execute_emergency_action db_two_incidents 9 "config_change"
        "order-api" { config_key := some "TIMEOUT_MS", new_value := some "30000" }
        "oncall" 0).2 = .emergency_ok 1 9 r) ∧
    (execute_emergency_action db_two_incidents 9 "config_change" "order-api"
        { config_key := some "TIMEOUT_MS", new_value := some "30000" }
        "oncall" 0).1.config_changes = [] :=
  ⟨⟨_, rfl⟩, rfl⟩

/-! Lemmas about the timeout sweep of `get_pending_approvals`. -/

theorem alookup_sweep_step_ne (now : ℚ) (d : DB)
    (r : Nat × AuditEntry × Incident) (i : Nat) (hne : i ≠ r.1) :
    alookup i (sweep_step now d r).audit_logs = alookup i d.audit_logs := by
  unfold sweep_step
  split
  · simp only [update_audit_log]
    exact alookup_aupdate_ne _ _ _ _ hne
  · rfl

theorem alookup_sweep_foldl_notmem (now : ℚ)
    (L : List (Nat × AuditEntry × Incident)) (d : DB) (i : Nat)
    (hni : i ∉ L.map Prod.fst) :
    alookup i ((L.foldl (sweep_step now) d).audit_logs) =
      alookup i d.audit_logs := by
  induction L generalizing d with
  | nil => rfl
  | cons r T ih =>
    simp only [List.map_cons, List.mem_cons, not_or] at hni
    rw [List.foldl_cons, ih _ hni.2, alookup_sweep_step_ne now d r i hni.1]

theorem alookup_sweep_foldl_mem (now : ℚ)
    (L : List (Nat × AuditEntry × Incident)) (d : DB) (i : Nat)
    (e : AuditEntry) (inc : Incident)
    (hnd : (L.map Prod.fst).Nodup) (hmem : (i, e, inc) ∈ L) :
    alookup i ((L.foldl (sweep_step now) d).audit_logs) =
      if now - e.created_at > APPROVAL_TIMEOUT_MINUTES then
        (alookup i d.audit_logs).map
          (audit_update_fun "rejected" (some sweep_reject_result) none false none now)
      else alookup i d.audit_logs := by
  induction L generalizing d with
  | nil => simp at hmem
  | cons r T ih =>
    simp only [List.map_cons, List.nodup_cons] at hnd
    rcases List.mem_cons.mp hmem with h1 | h1
    · subst h1
      rw [List.foldl_cons,
        alookup_sweep_foldl_notmem now T _ i (by simpa using hnd.1)]
      simp only [sweep_step]
      by_cases hcond : now - e.created_at > APPROVAL_TIMEOUT_MINUTES
      · rw [if_pos hcond, if_pos hcond]
        simp only [update_audit_log]
        rw [alookup_aupdate_self]
      · rw [if_neg hcond, if_neg hcond]
    · have hir : i ≠ r.1 := by
        intro hir
        exact hnd.1 (List.mem_map.mpr ⟨(i, e, inc), h1, hir⟩)
      rw [List.foldl_cons]
      rw [ih (sweep_step now d r) hnd.2 h1, alookup_sweep_step_ne now d r i hir]

/-! Lemmas about the joined pending-rows query. -/

theorem mem_pending_actions (db : DB) (i iid : Nat) (e : AuditEntry)
    (inc : Incident) (hmem : (i, e) ∈ db.audit_logs)
    (hst : e.status = "pending_approval") (hiid : e.incident_id = some iid)
    (hinc : alookup iid db.incidents = some inc) :
    (i, e, inc) ∈ pending_actions db none := by
  unfold pending_actions
  rw [List.mem_insertionSort]
  unfold pending_rows
  exact List.mem_filterMap.mpr ⟨(i, e), hmem, by simp [hiid, hinc, hst]⟩

theorem pending_actions_spec (db : DB) (filt : Option Nat)
    (r : Nat × AuditEntry × Incident) (h : r ∈ pending_actions db filt) :
    (r.1, r.2.1) ∈ db.audit_logs ∧ r.2.1.status = "pending_approval" ∧
    ∃ iid, r.2.1.incident_id = some iid ∧
      alookup iid db.incidents = some r.2.2 := by
  unfold pending_actions at h
  rw [List.mem_insertionSort] at h
  unfold pending_rows at h
  have h2 : r ∈ db.audit_logs.filterMap (fun p =>
      match p.2.incident_id with
      | none => none
      | some iid =>
        match alookup iid db.incidents with
        | none => none
        | some inc =>
          if p.2.status = "pending_approval" then some (p.1, p.2, inc)
          else none) := by
    rcases filt with _ | i
    · exact h
    · simp only at h
      by_cases hi : i ≠ 0
      · rw [if_pos hi] at h
        exact (List.mem_filter.mp h).1
      · rw [if_neg hi] at h
        exact h
  obtain ⟨p, hp, hpe⟩ := List.mem_filterMap.mp h2
  rcases hiid : p.2.incident_id with _ | iid
  · simp only [hiid] at hpe
    cases hpe
  · simp only [hiid] at hpe
    rcases hinc : alookup iid db.incidents with _ | inc
    · simp only [hinc] at hpe
      cases hpe
    · simp only [hinc] at hpe
      by_cases hst : p.2.status = "pending_approval"
      · rw [if_pos hst] at hpe
        injection hpe with hpe2
        subst hpe2
        exact ⟨hp, hst, iid, hiid, hinc⟩
      · rw [if_neg hst] at hpe
        cases hpe

theorem map_fst_filterMap_fst_sublist {α β : Type}
    (f : (Nat × α) → Option (Nat × β))
    (hf : ∀ p q, f p = some q → q.1 = p.1) (l : List (Nat × α)) :
    ((l.filterMap f).map Prod.fst).Sublist (l.map Prod.fst) := by
  induction l with
  | nil => simp
  | cons p t ih =>
    rw [List.filterMap_cons]
    cases hfp : f p with
    | none =>
      simp only [List.map_cons]
      exact ih.cons _
    | some q =>
      simp only [List.map_cons, hf p q hfp]
      exact ih.cons₂ _

theorem pending_actions_keys_nodup (db : DB) (filt : Option Nat)
    (hnd : (db.audit_logs.map Prod.fst).Nodup) :
    ((pending_actions db filt).map Prod.fst).Nodup := by
  have hsub : ((pending_rows db filt).map Prod.fst).Sublist
      (db.audit_logs.map Prod.fst) := by
    unfold pending_rows
    have hbase := map_fst_filterMap_fst_sublist
      (fun p : Nat × AuditEntry =>
        match p.2.incident_id with
        | none => none
        | some iid =>
          match alookup iid db.incidents with
          | none => none
          | some inc =>
            if p.2.status = "pending_approval" then some (p.1, p.2, inc)
            else none)
      (by
        intro p q hq
        rcases hiid : p.2.incident_id with _ | iid
        · simp only [hiid] at hq
          cases hq
        · simp only [hiid] at hq
          rcases hinc : alookup iid db.incidents with _ | inc
          · simp only [hinc] at hq
            cases hq
          · simp only [hinc] at hq
            by_cases hst : p.2.status = "pending_approval"
            · rw [if_pos hst] at hq
              injection hq with hq2
              rw [← hq2]
            · rw [if_neg hst] at hq
              cases hq)
      db.audit_logs
    rcases filt with _ | i
    · exact hbase
    · simp only
      by_cases hi : i ≠ 0
      · rw [if_pos hi]
        exact ((List.filter_sublist _).map Prod.fst).trans hbase
      · rw [if_neg hi]
        exact hbase
  have hperm : ((pending_actions db filt).map Prod.fst).Perm
      ((pending_rows db filt).map Prod.fst) :=
    (List.perm_insertionSort _ (pending_rows db filt)).map Prod.fst
  exact hperm.symm.nodup (hsub.nodup hnd)

/-- C3, corrected.  A pending entry (linked to an existing incident) is
still pending and listed whenever the sweep runs no more than
`APPROVAL_TIMEOUT_MINUTES` after its creation, and is auto-rejected with
`result.reason = "auto-rejected: approval timeout exceeded"` (a string
containing `timeout`) whenever `now - created_at` exceeds the timeout;
the amendment forced by `c3_counterexample` is that the reason lives in
the `result` column while `error_message` is overwritten with NULL — the
claim asserted `error_message` itself contains `timeout`. -/
theorem c3_theorem (db : DB) (i iid : Nat) (e : AuditEntry) (inc : Incident)
    (hnd : (db.audit_logs.map Prod.fst).Nodup)
    (he : alookup i db.audit_logs = some e)
    (hst : e.status = "pending_approval")
    (hiid : e.incident_id = some iid)
    (hinc : alookup iid db.incidents = some inc) :
    (∀ now : ℚ, ¬ (now - e.created_at > APPROVAL_TIMEOUT_MINUTES) →
      alookup i (get_pending_approvals db none now).1.audit_logs = some e ∧
      ∃ n acts, (get_pending_approvals db none now).2 = .listing n acts ∧
        (i, e, inc, now - e.created_at) ∈ acts) ∧
    (∀ now : ℚ, now - e.created_at > APPROVAL_TIMEOUT_MINUTES →
      ∃ e2, alookup i (get_pending_approvals db none now).1.audit_logs = some e2 ∧
        e2.status = "rejected" ∧
        e2.result = some sweep_reject_result ∧
        e2.error_message = none ∧
        sweep_reject_result.reason =
          some "auto-rejected: approval timeout exceeded" ∧
        containsStr "timeout" "auto-rejected: approval timeout exceeded") := by
  have hpm : (i, e, inc) ∈ pending_actions db none :=
    mem_pending_actions db i iid e inc (alookup_mem he) hst hiid hinc
  have hne : pending_actions db none ≠ [] := List.ne_nil_of_mem hpm
  have hknd := pending_actions_keys_nodup db none hnd
  constructor
  · intro now hcond
    constructor
    · simp only [get_pending_approvals]
      rw [if_neg hne, alookup_sweep_foldl_mem now _ db i e inc hknd hpm,
        if_neg hcond]
      exact he
    · have hresp : (get_pending_approvals db none now).2 =
          .listing ((pending_actions db none).filterMap (fun r =>
            if now - r.2.1.created_at > APPROVAL_TIMEOUT_MINUTES then none
            else some (r.1, r.2.1, r.2.2, now - r.2.1.created_at))).length
          ((pending_actions db none).filterMap (fun r =>
            if now - r.2.1.created_at > APPROVAL_TIMEOUT_MINUTES then none
            else some (r.1, r.2.1, r.2.2, now - r.2.1.created_at))) := by
        simp only [get_pending_approvals]
        rw [if_neg hne]
      exact ⟨_, _, hresp,
        List.mem_filterMap.mpr ⟨(i, e, inc), hpm, by simp [hcond]⟩⟩
  · intro now hcond
    have hb : alookup i (get_pending_approvals db none now).1.audit_logs =
        some (audit_update_fun "rejected" (some sweep_reject_result)
          none false none now e) := by
      simp only [get_pending_approvals]
      rw [if_neg hne, alookup_sweep_foldl_mem now _ db i e inc hknd hpm,
        if_pos hcond, he]
      rfl
    exact ⟨_, hb, rfl, rfl, rfl, rfl,
      ⟨"auto-rejected: approval ", " exceeded", by decide⟩⟩

/-- C3 witness: the theorem applied to `db_pending` (entry created at
t0 = 0): at t0 + 29 the entry is still pending and listed; at t0 + 31 it
is auto-rejected with the timeout reason in `result`. -/
theorem c3_witness :
    ((db_pending.audit_logs.map Prod.fst).Nodup ∧
      alookup 3 db_pending.audit_logs = some entry_pending ∧
      entry_pending.status = "pending_approval" ∧
      entry_pending.incident_id = some 7 ∧
      alookup 7 db_pending.incidents = some inc_high ∧
      ¬ ((29 : ℚ) - entry_pending.created_at > APPROVAL_TIMEOUT_MINUTES) ∧
      ((31 : ℚ) - entry_pending.created_at > APPROVAL_TIMEOUT_MINUTES)) ∧
    (alookup 3 (get_pending_approvals db_pending none 29).1.audit_logs =
        some entry_pending ∧
      ∃ n acts, (get_pending_approvals db_pending none 29).2 = .listing n acts ∧
        (3, entry_pending, inc_high, (29 : ℚ) - entry_pending.created_at) ∈ acts) ∧
    (∃ e2, alookup 3 (get_pending_approvals db_pending none 31).1.audit_logs =
        some e2 ∧
      e2.status = "rejected" ∧
      e2.result = some sweep_reject_result ∧
      e2.error_message = none ∧
      sweep_reject_result.reason = some "auto-rejected: approval timeout exceeded" ∧
      containsStr "timeout" "auto-rejected: approval timeout exceeded") :=
  ⟨⟨by decide, by decide, by decide, by decide, by decide,
    by norm_num [entry_pending, APPROVAL_TIMEOUT_MINUTES],
    by norm_num [entry_pending, APPROVAL_TIMEOUT_MINUTES]⟩,
   (c3_theorem db_pending 3 7 entry_pending inc_high (by decide) (by decide)
     (by decide) (by decide) (by decide)).1 29
     (by norm_num [entry_pending, APPROVAL_TIMEOUT_MINUTES]),
   (c3_theorem db_pending 3 7 entry_pending inc_high (by decide) (by decide)
     (by decide) (by decide) (by decide)).2 31
     (by norm_num [entry_pending, APPROVAL_TIMEOUT_MINUTES])⟩

/-- C3 counterexample: after the sweep at t0 + 31 the auto-rejected
entry has `error_message = NULL` — not an `error_message` containing
`timeout` as the claim states (the reason string lives in `result`). -/
theorem c3_counterexample :
    ((alookup 3 (get_pending_approvals db_pending none 31).1.audit_logs).map
        AuditEntry.status) = some "rejected" ∧
    ((alookup 3 (get_pending_approvals db_pending none 31).1.audit_logs).map
        AuditEntry.error_message) = some none := by
  have hpm : (3, entry_pending, inc_high) ∈ pending_actions db_pending none :=
    mem_pending_actions db_pending 3 7 entry_pending inc_high (by decide)
      (by decide) (by decide) (by decide)
  have hne : pending_actions db_pending none ≠ [] := List.ne_nil_of_mem hpm
  have hknd := pending_actions_keys_nodup db_pending none (by decide)
  have hcond : (31 : ℚ) - entry_pending.created_at > APPROVAL_TIMEOUT_MINUTES := by
    norm_num [entry_pending, APPROVAL_TIMEOUT_MINUTES]
  constructor <;>
    · simp only [get_pending_approvals]
      rw [if_neg hne,
        alookup_sweep_foldl_mem 31 _ db_pending 3 entry_pending inc_high hknd hpm,
        if_pos hcond]
      rfl

/-- C10: an audit entry whose `incident_id` is NULL is invisible to the
approval gate: `approve_action` reports it as not found (and changes
nothing) even though the entry exists, the pending listing never
contains it, and the timeout sweep leaves it untouched at every `now` —
it can stay `pending_approval` forever. -/
theorem c10_theorem (db : DB) (i : Nat) (e : AuditEntry)
    (approved_by : String) (filt : Option Nat) (now : ℚ)
    (hnd : (db.audit_logs.map Prod.fst).Nodup)
    (he : alookup i db.audit_logs = some e)
    (hnul : e.incident_id = none) :
    approve_action db i approved_by now =
      (db, .err ("Audit log " ++ (toString i ++ " not found."))) ∧
    (∀ r ∈ pending_actions db filt, r.1 ≠ i) ∧
    alookup i (get_pending_approvals db filt now).1.audit_logs = some e := by
  have hnm : ∀ r ∈ pending_actions db filt, r.1 ≠ i := by
    intro r hr hri
    obtain ⟨hmem, hst2, iid, hiid2, hinc2⟩ := pending_actions_spec db filt r hr
    rw [hri] at hmem
    have h3 := alookup_of_mem_nodup hnd hmem
    rw [he] at h3
    injection h3 with h4
    rw [← h4, hnul] at hiid2
    cases hiid2
  refine ⟨?_, hnm, ?_⟩
  · simp [approve_action, he, hnul]
  · by_cases hp : pending_actions db filt = []
    · simp only [get_pending_approvals]
      rw [if_pos hp]
      exact he
    · simp only [get_pending_approvals]
      rw [if_neg hp]
      have hni : i ∉ (pending_actions db filt).map Prod.fst := by
        intro hmem2
        obtain ⟨r, hr, hri⟩ := List.mem_map.mp hmem2
        exact hnm r hr hri
      rw [alookup_sweep_foldl_notmem now _ db i hni]
      exact he

/-- An audit entry stuck in `pending_approval` with a NULL
`incident_id`. -/
def entry_orphan : AuditEntry :=
  { entry_pending with incident_id := none }

/-- Database fixture: the orphan pending entry plus an unrelated
incident. -/
def db_orphan : DB :=
  { audit_logs := [(3, entry_orphan)]
    incidents := [(7, inc_high)]
    next_audit_id := 4 }

/-- C10 witness: the theorem applied to `db_orphan` at `now = 100`,
far past the 30-minute timeout — the orphan entry is still untouched. -/
theorem c10_witness :
    ((db_orphan.audit_logs.map Prod.fst).Nodup ∧
      alookup 3 db_orphan.audit_logs = some entry_orphan ∧
      entry_orphan.incident_id = none) ∧
    (approve_action db_orphan 3 "alice" 100 =
      (db_orphan, .err ("Audit log " ++ (toString 3 ++ " not found."))) ∧
    (∀ r ∈ pending_actions db_orphan none, r.1 ≠ 3) ∧
    alookup 3 (get_pending_approvals db_orphan none 100).1.audit_logs =
      some entry_orphan) :=
  ⟨⟨by decide, by decide, by decide⟩,
   c10_theorem db_orphan 3 entry_orphan "alice" none 100
     (by decide) (by decide) (by decide)⟩

/-! The audit-log status machine (spec section 4.4). -/

/-- The five audit-log statuses named by the spec. -/
def AUDIT_STATUSES : List String :=
  ["pending_approval", "executing", "completed", "rejected", "failed"]

/-- The status-transition edges of spec section 4.4. -/
def allowed_transition (a b : String) : Prop :=
  (a = "pending_approval" ∧ b = "executing") ∨
  (a = "pending_approval" ∧ b = "rejected") ∨
  (a = "executing" ∧ b = "completed") ∨
  (a = "executing" ∧ b = "failed")

/-- A gate-conformant audit entry: its recorded status history is
nonempty, ends at its current status, stays inside the five spec
statuses, and every consecutive pair is an allowed transition. -/
def gate_entry_ok (e : AuditEntry) : Prop :=
  e.history ≠ [] ∧
  e.history.getLast? = some e.status ∧
  (∀ s ∈ e.history, s ∈ AUDIT_STATUSES) ∧
  List.Chain' allowed_transition e.history

instance (a b : String) : Decidable (allowed_transition a b) :=
  inferInstanceAs (Decidable (
    (a = "pending_approval" ∧ b = "executing") ∨
    (a = "pending_approval" ∧ b = "rejected") ∨
    (a = "executing" ∧ b = "completed") ∨
    (a = "executing" ∧ b = "failed")))

instance (e : AuditEntry) : Decidable (gate_entry_ok e) :=
  inferInstanceAs (Decidable (e.history ≠ [] ∧
    e.history.getLast? = some e.status ∧
    (∀ s ∈ e.history, s ∈ AUDIT_STATUSES) ∧
    List.Chain' allowed_transition e.history))

theorem alookup_append_of_some {α : Type} (i : Nat) (l l2 : List (Nat × α))
    (x : α) (h : alookup i l = some x) : alookup i (l ++ l2) = some x := by
  induction l with
  | nil => cases h
  | cons p t ih =>
    obtain ⟨j, e⟩ := p
    by_cases hj : j = i
    · rw [alookup, if_pos hj] at h
      simp only [List.cons_append, alookup, if_pos hj]
      exact h
    · rw [alookup, if_neg hj] at h
      simp only [List.cons_append, alookup, if_neg hj]
      exact ih h

theorem gate_entry_append (e : AuditEntry) (s : String) (r : Option ExecResult)
    (em : Option String) (ha : Bool) (ab : Option String) (now : ℚ)
    (hok : gate_entry_ok e) (htr : allowed_transition e.status s)
    (hs : s ∈ AUDIT_STATUSES) :
    gate_entry_ok (audit_update_fun s r em ha ab now e) := by
  obtain ⟨hne, hlast, hsts, hch⟩ := hok
  refine ⟨by simp [audit_update_fun], ?_, ?_, ?_⟩
  · simp [audit_update_fun, List.getLast?_concat]
  · intro x hx
    simp only [audit_update_fun] at hx
    rcases List.mem_append.mp hx with h | h
    · exact hsts x h
    · simp only [List.mem_singleton] at h
      subst h
      exact hs
  · simp only [audit_update_fun]
    rw [List.chain'_append]
    refine ⟨hch, List.chain'_singleton s, ?_⟩
    intro x hx y hy
    rw [hlast] at hx
    simp only [Option.mem_def, Option.some.injEq] at hx
    simp only [List.head?_cons, Option.mem_def, Option.some.injEq] at hy
    subst hx
    subst hy
    exact htr

/-- C9 (amended): the four executor-gate operations preserve
gate-conformance of every audit entry (statuses stay within the five
spec statuses and change only along the section-4.4 edges), while
`update_audit_log` rewrites the `result`, `approved_by` and
`completed_at` columns on every call — in particular `completed_at` is
already written (to NOW()) at the non-terminal `executing` transition,
so those fields are not write-once (see `c9_counterexample`, which also
shows the mediator's telemetry entries using the out-of-set statuses
`pending` and `success`). -/
theorem c9_theorem (db : DB) (i iid : Nat)
    (a reason atype sname op : String) (details : ActionDetails)
    (filt : Option Nat) (now : ℚ)
    (hnd : (db.audit_logs.map Prod.fst).Nodup)
    (hfresh : alookup db.next_audit_id db.audit_logs = none)
    (hall : ∀ j e, alookup j db.audit_logs = some e → gate_entry_ok e) :
    (∀ j e2, alookup j (approve_action db i a now).1.audit_logs = some e2 →
      gate_entry_ok e2) ∧
    (∀ j e2, alookup j (reject_action db i reason now).1.audit_logs = some e2 →
      gate_entry_ok e2) ∧
    (∀ j e2, alookup j (execute_emergency_action db iid atype sname details
        op now).1.audit_logs = some e2 → gate_entry_ok e2) ∧
    (∀ j e2, alookup j (get_pending_approvals db filt now).1.audit_logs =
        some e2 → gate_entry_ok e2) ∧
    (∀ st r em ha ab e, alookup i db.audit_logs = some e →
      alookup i (update_audit_log db i st r em ha ab now).audit_logs =
        some (audit_update_fun st r em ha ab now e) ∧
      (audit_update_fun st r em ha ab now e).completed_at = some now ∧
      (audit_update_fun st r em ha ab now e).completed_at_writes =
        e.completed_at_writes + 1 ∧
      (audit_update_fun st r em ha ab now e).result_writes =
        e.result_writes + 1 ∧
      (audit_update_fun st r em ha ab now e).approved_by_writes =
        e.approved_by_writes + 1) := by
  refine ⟨?_, ?_, ?_, ?_, ?_⟩
  · -- approve_action
    intro j e2 h2
    rcases he : alookup i db.audit_logs with _ | e
    · simp only [approve_action, he] at h2
      exact hall j e2 h2
    · rcases hiid2 : e.incident_id with _ | iid2
      · simp only [approve_action, he, hiid2] at h2
        exact hall j e2 h2
      · rcases hinc : alookup iid2 db.incidents with _ | inc
        · simp only [approve_action, he, hiid2, hinc] at h2
          exact hall j e2 h2
        · by_cases hst : e.status = "pending_approval"
          · simp only [approve_action, he, hiid2, hinc] at h2
            rw [if_neg (fun hne2 => hne2 hst)] at h2
            simp only [audit_logs_update_incident, update_audit_log,
              audit_logs_ite_record] at h2
            by_cases hji : j = i
            · subst hji
              rw [alookup_aupdate_self, alookup_aupdate_self, he] at h2
              simp only [Option.map_some'] at h2
              injection h2 with h3
              subst h3
              refine gate_entry_append _ _ _ _ _ _ _ ?_ ?_ (by decide)
              · exact gate_entry_append _ _ _ _ _ _ _ (hall _ e he)
                  (Or.inl ⟨hst, rfl⟩) (by decide)
              · exact Or.inr (Or.inr (Or.inl ⟨rfl, rfl⟩))
            · rw [alookup_aupdate_ne _ _ _ _ hji,
                alookup_aupdate_ne _ _ _ _ hji] at h2
              exact hall j e2 h2
          · simp only [approve_action, he, hiid2, hinc] at h2
            rw [if_pos hst] at h2
            exact hall j e2 h2
  · -- reject_action
    intro j e2 h2
    rcases he : alookup i db.audit_logs with _ | e
    · simp only [reject_action, he] at h2
      exact hall j e2 h2
    · by_cases hst : e.status = "pending_approval"
      · simp only [reject_action, he] at h2
        rw [if_neg (fun hne2 => hne2 hst)] at h2
        simp only [update_audit_log] at h2
        by_cases hji : j = i
        · subst hji
          rw [alookup_aupdate_self, he] at h2
          simp only [Option.map_some'] at h2
          injection h2 with h3
          subst h3
          exact gate_entry_append _ _ _ _ _ _ _ (hall _ e he)
            (Or.inr (Or.inl ⟨hst, rfl⟩)) (by decide)
        · rw [alookup_aupdate_ne _ _ _ _ hji] at h2
          exact hall j e2 h2
      · simp only [reject_action, he] at h2
        rw [if_pos hst] at h2
        exact hall j e2 h2
  · -- execute_emergency_action
    intro j e2 h2
    by_cases hmem : atype ∈ ALLOWED_ACTION_TYPES
    · rcases hinc : alookup iid db.incidents with _ | inc
      · simp only [execute_emergency_action, hinc] at h2
        rw [if_neg (fun h => h hmem)] at h2
        exact hall j e2 h2
      · by_cases hsev : inc.severity = "critical"
        · simp only [execute_emergency_action, hinc] at h2
          rw [if_neg (fun h => h hmem), if_neg (fun h => h hsev)] at h2
          simp only [create_audit_log, update_audit_log,
            audit_logs_update_incident] at h2
          by_cases hji : j = db.next_audit_id
          · subst hji
            rw [alookup_aupdate_self,
              alookup_append_of_none _ _ _ hfresh] at h2
            simp only [alookup, if_pos rfl, Option.map_some'] at h2
            injection h2 with h3
            subst h3
            refine gate_entry_append _ _ _ _ _ _ _ ?_ ?_ (by decide)
            · refine ⟨by simp, rfl, ?_, List.chain'_singleton _⟩
              intro x hx
              simp only [List.mem_singleton] at hx
              subst hx
              decide
            · exact Or.inr (Or.inr (Or.inl ⟨rfl, rfl⟩))
          · rw [alookup_aupdate_ne _ _ _ _ hji] at h2
            rcases hj0 : alookup j db.audit_logs with _ | e0
            · rw [alookup_append_of_none _ _ _ hj0] at h2
              simp only [alookup] at h2
              rw [if_neg (fun h => hji h.symm)] at h2
              cases h2
            · rw [alookup_append_of_some _ _ _ _ hj0] at h2
              injection h2 with h3
              subst h3
              exact hall j e0 hj0
        · simp only [execute_emergency_action, hinc] at h2
          rw [if_neg (fun h => h hmem), if_pos hsev] at h2
          exact hall j e2 h2
    · simp only [execute_emergency_action] at h2
      rw [if_pos hmem] at h2
      exact hall j e2 h2
  · -- get_pending_approvals (timeout sweep)
    intro j e2 h2
    by_cases hp : pending_actions db filt = []
    · simp only [get_pending_approvals] at h2
      rw [if_pos hp] at h2
      exact hall j e2 h2
    · simp only [get_pending_approvals] at h2
      rw [if_neg hp] at h2
      by_cases hj : j ∈ (pending_actions db filt).map Prod.fst
      · obtain ⟨r, hr, hrj⟩ := List.mem_map.mp hj
        obtain ⟨rj, re, rinc⟩ := r
        simp only at hrj
        subst hrj
        obtain ⟨hmem0, hst0, iid0, hiid0, hinc0⟩ :=
          pending_actions_spec db filt _ hr
        have hknd := pending_actions_keys_nodup db filt hnd
        rw [alookup_sweep_foldl_mem now _ db rj re rinc hknd hr] at h2
        have hje : alookup rj db.audit_logs = some re :=
          alookup_of_mem_nodup hnd hmem0
        by_cases hcond : now - re.created_at > APPROVAL_TIMEOUT_MINUTES
        · rw [if_pos hcond, hje] at h2
          simp only [Option.map_some'] at h2
          injection h2 with h3
          subst h3
          exact gate_entry_append _ _ _ _ _ _ _ (hall _ re hje)
            (Or.inr (Or.inl ⟨hst0, rfl⟩)) (by decide)
        · rw [if_neg hcond] at h2
          exact hall _ e2 h2
      · rw [alookup_sweep_foldl_notmem now _ db j hj] at h2
        exact hall j e2 h2
  · -- update_audit_log rewrites result / approved_by / completed_at
    intro st r em ha ab e he
    refine ⟨?_, rfl, rfl, rfl, rfl⟩
    simp only [update_audit_log]
    rw [alookup_aupdate_self, he]
    rfl

/-- C9 witness: the preservation theorem applied to `db_pending`. -/
theorem c9_witness :
    ((db_pending.audit_logs.map Prod.fst).Nodup ∧
      alookup db_pending.next_audit_id db_pending.audit_logs = none ∧
      gate_entry_ok entry_pending) ∧
    ((∀ j e2, alookup j
        (approve_action db_pending 3 "alice" 5).1.audit_logs = some e2 →
        gate_entry_ok e2) ∧
    (∀ j e2, alookup j
        (reject_action db_pending 3 "no" 5).1.audit_logs = some e2 →
        gate_entry_ok e2) ∧
    (∀ j e2, alookup j (execute_emergency_action db_pending 7 "rollback"
        "payment-api" {} "oncall" 5).1.audit_logs = some e2 →
        gate_entry_ok e2) ∧
    (∀ j e2, alookup j
        (get_pending_approvals db_pending none 5).1.audit_logs = some e2 →
        gate_entry_ok e2) ∧
    (∀ st r em ha ab e, alookup 3 db_pending.audit_logs = some e →
      alookup 3 (update_audit_log db_pending 3 st r em ha ab 5).audit_logs =
        some (audit_update_fun st r em ha ab 5 e) ∧
      (audit_update_fun st r em ha ab 5 e).completed_at = some 5 ∧
      (audit_update_fun st r em ha ab 5 e).completed_at_writes =
        e.completed_at_writes + 1 ∧
      (audit_update_fun st r em ha ab 5 e).result_writes =
        e.result_writes + 1 ∧
      (audit_update_fun st r em ha ab 5 e).approved_by_writes =
        e.approved_by_writes + 1)) :=
  ⟨⟨by decide, by decide,
    ⟨by decide, by decide, by decide, List.chain'_singleton _⟩⟩,
   c9_theorem db_pending 3 7 "alice" "no" "rollback" "payment-api" "oncall"
     {} none 5 (by decide) (by decide)
     (by
       intro j e h
       simp only [db_pending, alookup] at h
       split at h
       · injection h with h2
         subst h2
         exact ⟨by decide, by decide, by decide, List.chain'_singleton _⟩
       · cases h)⟩

/-- The audit-trail wrapper pattern used by the mediator's tools
(e.g. `check_guardrails`, mediator main.py lines 177 and 291): the entry
is created without an explicit status — so with the Python default
`"pending"` — and on success updated to `"success"`. -/
def mediator_tool_audit (db : DB) (agent_name action_type : String)
    (details : ActionDetails) (result : ExecResult) (now : ℚ) : DB :=
  let created := create_audit_log db agent_name action_type details none
    "pending" now
  update_audit_log created.2 created.1 "success" (some result) none false
    none now

/-- C9 counterexample: (1) a mediator tool run leaves an audit entry
whose status history is `["pending", "success"]` — two statuses outside
the claimed five-value set; (2) `update_audit_log` at the non-terminal
`executing` transition already writes `completed_at = NOW()`, and after
a successful approval `completed_at` has been written twice, refuting
write-once-at-the-terminal-transition. -/
theorem c9_counterexample :
    ((alookup 1 (mediator_tool_audit {} "mediator" "check_guardrails" {}
        {} 0).audit_logs).map AuditEntry.history) =
      some ["pending", "success"] ∧
    ("pending" : String) ∉ AUDIT_STATUSES ∧
    ("success" : String) ∉ AUDIT_STATUSES ∧
    ((alookup 3 (update_audit_log db_pending 3 "executing" none none false
        none 5).audit_logs).map AuditEntry.completed_at) = some (some 5) ∧
    ((alookup 3 (approve_action db_pending 3 "alice" 5).1.audit_logs).map
        AuditEntry.completed_at_writes) = some 2 :=
  ⟨rfl, by decide, by decide, rfl, rfl⟩

/-! Mediator agent (`mcp-agents/mediator-agent/main.py`): guardrail
policy engine and risk scorer.  Both tools are read-only over the store
(their audit-trail writes are the `mediator_tool_audit` pattern above),
so they are modelled as pure functions of the database state they read:
the service's blast radius, its direct dependents, the service row and
the current UTC hour. -/

/-- The fields of a `services` row read by the mediator. -/
structure MService where
  rollback_safety_score : Option ℚ := none
deriving Repr, DecidableEq

/-- A row returned by `get_service_dependencies`. -/
structure Dep where
  dependent_service : String := ""
  dependency_type : String := ""
  criticality : String := ""
deriving Repr, DecidableEq

/-- The read-only state consulted for a given service. -/
structure GuardEnv where
  blast_radius : List (String × Nat) := []
  direct_deps : List Dep := []
  service : Option MService := none
  current_hour : Nat := 0
deriving Repr, DecidableEq

/-- The `GUARDRAILS` policy-constant dictionary. -/
structure GuardrailPolicy where
  max_blast_radius : Nat := 5
  critical_services_require_approval : Bool := true
  rollback_always_allowed : Bool := true
  max_scale_factor : ℚ := 3
  blocked_actions_in_peak_hours : List String := ["restart", "scale_down"]
  peak_start : Nat := 14
  peak_end : Nat := 22
deriving Repr, DecidableEq

/-- The `GUARDRAILS` constant of the mediator agent. -/
def GUARDRAILS : GuardrailPolicy := {}

/-- One guardrail check result. -/
structure Check where
  check : String := ""
  status : String := ""
  message : String := ""
deriving Repr, DecidableEq

/-- The JSON payload returned by `check_guardrails`. -/
structure GuardrailResult where
  status : String := ""
  all_checks_passed : Bool := false
  requires_human_approval : Bool := false
  checks : List Check := []
  total_checks : Nat := 0
  passed : Nat := 0
  warnings : Nat := 0
  blocked : Nat := 0
deriving Repr, DecidableEq

/-- The `action_details` keys read by the mediator: `to` and `from` for
scale actions (field names prefixed with `scale_` as in the source's
local variables, since `from` is reserved in Lean), and the expected
resolution time. -/
structure MedDetails where
  scale_to : Option ℚ := none
  scale_from : Option ℚ := none
  expected_resolution_time_minutes : Option ℚ := none
deriving Repr, DecidableEq

/-- `check_guardrails` from the mediator agent.  Checks in source order:
blast-radius limit (blocked on violation), critical-dependency
protection (warning + requires approval), the rollback exception (an
always-passed check appended only for rollbacks), peak-hours restriction
(blocked on violation), and the scale-factor limit for `scale_up`
(blocked on violation).  `all_checks_passed` is exactly "no blocked
branch was taken". -/
def check_guardrails (env : GuardEnv) (action_type : String)
    (details : MedDetails) : GuardrailResult :=
  let blast_count := env.blast_radius.length
  -- Check 1: Blast radius
  let c1 : Check :=
    if blast_count > GUARDRAILS.max_blast_radius then
      { check := "blast_radius", status := "blocked",
        message := "Blast radius (" ++ toString blast_count ++
          ") exceeds maximum (" ++ (toString GUARDRAILS.max_blast_radius ++ ")") }
    else
      { check := "blast_radius", status := "passed",
        message := "Blast radius (" ++ (toString blast_count ++ ") within limits") }
  -- Check 2: Critical service protection
  let critical_deps := env.direct_deps.filter (fun d => d.criticality = "critical")
  let requires_approval : Bool :=
    !critical_deps.isEmpty && GUARDRAILS.critical_services_require_approval
  let c2 : Check :=
    if requires_approval then
      { check := "critical_dependency", status := "warning",
        message := "Service has " ++ toString critical_deps.length ++
          " critical dependent(s). Requires human approval." }
    else
      { check := "critical_dependency", status := "passed",
        message := "No critical dependencies affected" }
  -- Check 3: Rollback always allowed
  let c3 : List Check :=
    if action_type = "rollback" ∧ GUARDRAILS.rollback_always_allowed = true then
      [{ check := "rollback_safety", status := "passed",
         message := "Rollback allowed" }]
    else []
  -- Check 4: Peak hours restriction
  let is_peak := GUARDRAILS.peak_start ≤ env.current_hour ∧
    env.current_hour < GUARDRAILS.peak_end
  let c4 : Check :=
    if is_peak ∧ action_type ∈ GUARDRAILS.blocked_actions_in_peak_hours then
      { check := "peak_hours", status := "blocked",
        message := "Action " ++ action_type ++ " is blocked during peak hours" }
    else
      { check := "peak_hours", status := "passed",
        message := "Not in peak hours or action is allowed" }
  -- Check 5: Scale factor limit
  let scale_to := details.scale_to.getD 1
  let scale_from := details.scale_from.getD 1
  let c5 : List Check :=
    if action_type = "scale_up" then
      [if scale_from > 0 ∧ scale_to / scale_from > GUARDRAILS.max_scale_factor then
        { check := "scale_factor", status := "blocked",
          message := "Scale factor exceeds maximum" }
      else
        { check := "scale_factor", status := "passed",
          message := "Scale factor within limits" }]
    else []
  let checks := [c1, c2] ++ c3 ++ ([c4] ++ c5)
  -- all_passed is set to False exactly in the three blocked branches
  let all_passed : Bool :=
    !(decide (blast_count > GUARDRAILS.max_blast_radius) ||
      decide (is_peak ∧ action_type ∈ GUARDRAILS.blocked_actions_in_peak_hours) ||
      decide (action_type = "scale_up" ∧ scale_from > 0 ∧
        scale_to / scale_from > GUARDRAILS.max_scale_factor))
  let overall_status :=
    if all_passed then
      (if requires_approval then "requires_approval" else "approved")
    else "blocked"
  { status := overall_status
    all_checks_passed := all_passed
    requires_human_approval := requires_approval
    checks := checks
    total_checks := checks.length
    passed := checks.countP (fun c => c.status == "passed")
    warnings := checks.countP (fun c => c.status == "warning")
    blocked := checks.countP (fun c => c.status == "blocked") }

/-- The risk-assessed recommendation computed by
`produce_recommendation`. -/
structure Recommendation where
  verdict : String := ""
  verdict_reason : String := ""
  safety_score : ℚ := 0
  risk_factors : List String := []
  requires_human_approval : Bool := false
  guardrail_status : String := ""
  guardrail_blocked : Nat := 0
deriving Repr, DecidableEq

/-- The deterministic core of `produce_recommendation` (the AI narration
is consulted for text only, never for the verdict or score): guardrail
checks on the incident's service, then the risk score starting at 1.0
with the three weighted penalties, the clamp to [0,1], and the verdict
mapping.  The rollback-safety penalty mirrors the Python truthiness
test `if service and service.get("rollback_safety_score")`: a missing
service, a missing score, or a score equal to 0 skips the penalty. -/
def produce_recommendation (env : GuardEnv) (severity : String)
    (proposed_action : String) (details : MedDetails) : Recommendation :=
  let guardrail_result := check_guardrails env proposed_action details
  let blast_count := env.blast_radius.length
  let score1 : ℚ := 1
  let factors1 : List String := []
  let score2 :=
    if blast_count > 3 then score1 - 0.3
    else if blast_count > 0 then score1 - 0.1
    else score1
  let factors2 :=
    if blast_count > 3 then
      factors1 ++ ["High blast radius (" ++
        (toString blast_count ++ " services affected)")]
    else if blast_count > 0 then
      factors1 ++ ["Moderate blast radius (" ++
        (toString blast_count ++ " services affected)")]
    else factors1
  let score3 :=
    if guardrail_result.blocked > 0 then score2 - 0.4 else score2
  let factors3 :=
    if guardrail_result.blocked > 0 then
      factors2 ++ ["Some guardrail checks were blocked"]
    else factors2
  let factors4 :=
    if severity = "critical" then
      factors3 ++ ["Critical severity incident - faster action needed"]
    else factors3
  let rss : Option ℚ :=
    match env.service with
    | some sv => sv.rollback_safety_score
    | none => none
  let score5 :=
    match rss with
    | some x => if x ≠ 0 ∧ x < 0.5 then score3 - 0.2 else score3
    | none => score3
  let factors5 :=
    match rss with
    | some x =>
      if x ≠ 0 ∧ x < 0.5 then
        factors4 ++ ["Low rollback safety score (" ++ (toString x ++ ")")]
      else factors4
    | none => factors4
  let safety_score := max 0 (min 1 score5)
  let verdict : String :=
    if guardrail_result.status = "blocked" then "BLOCKED"
    else if safety_score ≥ 0.7 then "RECOMMENDED"
    else if safety_score ≥ 0.4 then "CAUTION"
    else "NOT_RECOMMENDED"
  let verdict_reason : String :=
    if guardrail_result.status = "blocked" then
      "Action blocked by guardrails. Manual override required."
    else if safety_score ≥ 0.7 then
      "Low risk. Safe to proceed with human approval."
    else if safety_score ≥ 0.4 then
      "Medium risk. Proceed with careful monitoring."
    else "High risk. Consider alternative actions."
  let requires_approval := guardrail_result.requires_human_approval ||
    decide (verdict ∈ (["CAUTION", "NOT_RECOMMENDED", "BLOCKED"] : List String))
  { verdict := verdict
    verdict_reason := verdict_reason
    safety_score := safety_score
    risk_factors := factors5
    requires_human_approval := requires_approval
    guardrail_status := guardrail_result.status
    guardrail_blocked := guardrail_result.blocked }

/-- C4: `check_guardrails` returns `overallStatus = "blocked"` exactly
when some individual check is blocked; otherwise the status is
`requires_approval` exactly when some check is a warning (the
critical-dependency warning that demands approval) and `approved`
otherwise; and whenever the guardrail status is `blocked` the risk
scorer's verdict is `BLOCKED`. -/
theorem c4_theorem (env : GuardEnv) (action_type severity : String)
    (details : MedDetails) :
    ((check_guardrails env action_type details).status = "blocked" ↔
      ∃ c ∈ (check_guardrails env action_type details).checks,
        c.status = "blocked") ∧
    ((check_guardrails env action_type details).status ≠ "blocked" →
      (((check_guardrails env action_type details).status = "requires_approval" ↔
        ∃ c ∈ (check_guardrails env action_type details).checks,
          c.status = "warning") ∧
      ((check_guardrails env action_type details).status = "approved" ↔
        ¬ ∃ c ∈ (check_guardrails env action_type details).checks,
          c.status = "warning"))) ∧
    ((check_guardrails env action_type details).status = "blocked" →
      (produce_recommendation env severity action_type details).verdict =
        "BLOCKED") := by
  have hverdict : (check_guardrails env action_type details).status = "blocked" →
      (produce_recommendation env severity action_type details).verdict =
        "BLOCKED" := by
    intro h
    simp only [produce_recommendation]
    rw [if_pos h]
  have hmain : ((check_guardrails env action_type details).status = "blocked" ↔
      ∃ c ∈ (check_guardrails env action_type details).checks,
        c.status = "blocked") ∧
    ((check_guardrails env action_type details).status ≠ "blocked" →
      (((check_guardrails env action_type details).status = "requires_approval" ↔
        ∃ c ∈ (check_guardrails env action_type details).checks,
          c.status = "warning") ∧
      ((check_guardrails env action_type details).status = "approved" ↔
        ¬ ∃ c ∈ (check_guardrails env action_type details).checks,
          c.status = "warning"))) := by
    by_cases h1 : 5 < env.blast_radius.length <;>
    by_cases h2 : (env.direct_deps.filter
      (fun d => d.criticality = "critical")).isEmpty = true <;>
    by_cases h3 : action_type = "rollback" <;>
    by_cases h4 : (14 ≤ env.current_hour ∧ env.current_hour < 22) ∧
      (action_type = "restart" ∨ action_type = "scale_down") <;>
    by_cases h5 : action_type = "scale_up" <;>
    by_cases h6 : 0 < details.scale_from.getD 1 ∧
      (3 : ℚ) < details.scale_to.getD 1 / details.scale_from.getD 1 <;>
      simp [check_guardrails, GUARDRAILS, h1, h2, h3, h4, h5, h6]
  exact ⟨hmain.1, hmain.2, hverdict⟩

/-- Scenario-D read state: no dependents, rollback safety score 0.9. -/
def env_scenario_d : GuardEnv :=
  { blast_radius := []
    direct_deps := []
    service := some { rollback_safety_score := some 0.9 }
    current_hour := 0 }

/-- Counterexample read state: identical but with rollback safety score
exactly 0. -/
def env_rss_zero : GuardEnv :=
  { blast_radius := []
    direct_deps := []
    service := some { rollback_safety_score := some 0 }
    current_hour := 0 }

/-- The risk-score formula exactly as claim C5 words it, for comparison
with the code: subtract 0.3 if blast radius > 3 else 0.1 if > 0;
subtract 0.4 if any guardrail check is blocked; subtract 0.2 if the
service's `rollback_safety_score` is below 0.5; clamp to [0,1]. -/
def c5_claim_score (blast_count : Nat) (any_blocked : Bool) (rss : ℚ) : ℚ :=
  max 0 (min 1 (1 -
    (if blast_count > 3 then 0.3 else if blast_count > 0 then 0.1 else 0) -
    (if any_blocked then 0.4 else 0) -
    (if rss < 0.5 then 0.2 else 0)))

/-- The verdict mapping of `produce_recommendation`, stated through the
result's own `safety_score` field (definitional). -/
theorem produce_recommendation_verdict (env : GuardEnv)
    (severity action : String) (details : MedDetails) :
    (produce_recommendation env severity action details).verdict =
      (if (check_guardrails env action details).status = "blocked" then
        "BLOCKED"
       else if (produce_recommendation env severity action
          details).safety_score ≥ 0.7 then "RECOMMENDED"
       else if (produce_recommendation env severity action
          details).safety_score ≥ 0.4 then "CAUTION"
       else "NOT_RECOMMENDED") := rfl

set_option maxHeartbeats 3200000

/-- C5, corrected.  The risk score equals 1 minus the three weighted
penalties, clamped to [0,1]; the blast and guardrail penalties are as
the claim states, but the rollback penalty of 0.2 applies only when the
service's `rollback_safety_score` is nonzero and below 0.5 (a score of
exactly 0 — Python falsy — skips the penalty, refuting the claim's
unconditional `< 0.5` trigger, see `c5_counterexample`).  Each applied
penalty appends one risk-factor string (plus one for critical severity);
the verdict is `BLOCKED` when guardrails blocked, else `RECOMMENDED` at
score ≥ 0.7, `CAUTION` at ≥ 0.4, else `NOT_RECOMMENDED`; and Scenario D
(blast radius 0, no blocked checks, score 0.9) yields exactly 1.0 and
`RECOMMENDED`. -/
theorem c5_theorem (env : GuardEnv) (severity action : String)
    (details : MedDetails) :
    ((produce_recommendation env severity action details).safety_score =
      max 0 (min 1 (1 -
        (if env.blast_radius.length > 3 then 0.3
         else if env.blast_radius.length > 0 then 0.1 else 0) -
        (if (check_guardrails env action details).blocked > 0 then 0.4 else 0) -
        (match env.service with
         | some sv =>
           match sv.rollback_safety_score with
           | some x => if x ≠ 0 ∧ x < 0.5 then (0.2 : ℚ) else 0
           | none => 0
         | none => 0))) ∧
    (produce_recommendation env severity action details).risk_factors.length =
      ((if env.blast_radius.length > 0 then 1 else 0) +
       (if (check_guardrails env action details).blocked > 0 then 1 else 0) +
       (if severity = "critical" then 1 else 0) +
       (match env.service with
        | some sv =>
          match sv.rollback_safety_score with
          | some x => if x ≠ 0 ∧ x < 0.5 then 1 else 0
          | none => 0
        | none => 0)) ∧
    (produce_recommendation env severity action details).verdict =
      (if (check_guardrails env action details).status = "blocked" then
        "BLOCKED"
       else if (produce_recommendation env severity action
          details).safety_score ≥ 0.7 then "RECOMMENDED"
       else if (produce_recommendation env severity action
          details).safety_score ≥ 0.4 then "CAUTION"
       else "NOT_RECOMMENDED")) ∧
    ((produce_recommendation env_scenario_d "high" "restart" {}).safety_score
        = 1 ∧
     (produce_recommendation env_scenario_d "high" "restart" {}).verdict =
        "RECOMMENDED") := by
  constructor
  · rcases hserv : env.service with _ | sv
    · by_cases hb1 : 3 < env.blast_radius.length <;>
      by_cases hb2 : 0 < env.blast_radius.length <;>
      by_cases hgb : 0 < (check_guardrails env action details).blocked <;>
      by_cases hsev : severity = "critical" <;>
        simp [produce_recommendation, hserv, hb1, hb2, hgb, hsev] <;> omega
    · rcases hrss : sv.rollback_safety_score with _ | x
      · by_cases hb1 : 3 < env.blast_radius.length <;>
        by_cases hb2 : 0 < env.blast_radius.length <;>
        by_cases hgb : 0 < (check_guardrails env action details).blocked <;>
        by_cases hsev : severity = "critical" <;>
          simp [produce_recommendation, hserv, hrss, hb1, hb2, hgb, hsev] <;>
            omega
      · by_cases hx : x ≠ 0 ∧ x < 0.5 <;>
        by_cases hb1 : 3 < env.blast_radius.length <;>
        by_cases hb2 : 0 < env.blast_radius.length <;>
        by_cases hgb : 0 < (check_guardrails env action details).blocked <;>
        by_cases hsev : severity = "critical" <;>
          simp [produce_recommendation, hserv, hrss, hx, hb1, hb2, hgb,
            hsev] <;> omega
  · have hcgd : (check_guardrails env_scenario_d "restart" {}).blocked = 0 := by
      decide
    have hstd : (check_guardrails env_scenario_d "restart" {}).status =
        "approved" := by
      decide
    have hbl : env_scenario_d.blast_radius.length = 0 := rfl
    have hsv : env_scenario_d.service =
        some { rollback_safety_score := some (0.9 : ℚ) } := rfl
    have hsc : (produce_recommendation env_scenario_d "high" "restart"
        {}).safety_score = 1 := by
      simp only [produce_recommendation, hbl, hsv, hcgd]
      norm_num
    refine ⟨hsc, ?_⟩
    rw [produce_recommendation_verdict, hsc]
    simp [hstd]
    norm_num

set_option maxHeartbeats 200000

/-- C5 counterexample: with blast radius 0, no blocked checks and
`rollback_safety_score = 0`, the code computes a safety score of exactly
1 (the zero score is falsy, so no 0.2 penalty), while the claim's
formula (`c5_claim_score`, penalty whenever the score is below 0.5)
demands 0.8. -/
theorem c5_counterexample :
    (check_guardrails env_rss_zero "restart" {}).blocked = 0 ∧
    (produce_recommendation env_rss_zero "high" "restart" {}).safety_score
      = 1 ∧
    c5_claim_score 0 false 0 = 0.8 ∧
    (1 : ℚ) ≠ 0.8 := by
  have hcg : (check_guardrails env_rss_zero "restart" {}).blocked = 0 := by
    decide
  have hbl : env_rss_zero.blast_radius.length = 0 := rfl
  have hsv : env_rss_zero.service =
      some { rollback_safety_score := some (0 : ℚ) } := rfl
  refine ⟨hcg, ?_, ?_, by norm_num⟩
  · simp only [produce_recommendation, hbl, hsv, hcg]
    norm_num
  · norm_num [c5_claim_score]

/-! Dependency-graph resolver (spec section 4.1).  The SQL function
`calculate_blast_radius` lives in the database schema, which is not part
of the shipped source tree — only its caller
(`db_utils.calculate_blast_radius`, which orders the rows by
`hop_count, service_name`) is.  The resolver is therefore modelled from
the spec. -/

/-- The service topology: the set of service names and the directed
dependency edges, `(a, b)` meaning `a` depends on `b`. -/
structure Graph where
  services : List String
  edges : List (String × String)
deriving Repr, DecidableEq

/-- Modelled from the spec: the direct dependents of a service — the
sources of the incoming dependency edges of `s`. -/
def dependents (g : Graph) (s : String) : List String :=
  (g.edges.filter (fun e => e.2 = s)).map Prod.fst

/-- The direct dependents as a finite set. -/
def depsFinset (g : Graph) (s : String) : Finset String :=
  (dependents g s).toFinset

/-- Modelled from the spec: breadth-first traversal with a visited set.
`bfs g root k = (seen, frontier)` after `k` expansion rounds: `seen` is
every node visited so far and `frontier` the nodes first reached at hop
`k`; each round expands the frontier along incoming dependency edges and
removes already-visited nodes, which bounds the traversal on cyclic
graphs. -/
def bfs (g : Graph) (root : String) : Nat → Finset String × Finset String
  | 0 => ({root}, {root})
  | k + 1 =>
    let prev := bfs g root k
    let next := (prev.2.biUnion (fun v => depsFinset g v)) \ prev.1
    (prev.1 ∪ next, next)

/-- The visited set after `k` rounds. -/
def seenAt (g : Graph) (root : String) (k : Nat) : Finset String :=
  (bfs g root k).1

/-- The hop-`k` frontier. -/
def frontierAt (g : Graph) (root : String) (k : Nat) : Finset String :=
  (bfs g root k).2

/-- Modelled from the spec: `blastRadius(serviceName)` — the transitive
dependents with their hop counts, ascending by hop count then by service
name, failing with `NotFoundError` when the root service is absent.
Hop levels up to the number of services suffice: deeper frontiers are
necessarily empty. -/
def calculate_blast_radius (g : Graph) (root : String) :
    Except String (List (String × Nat)) :=
  if root ∈ g.services then
    .ok ((List.range g.services.length).flatMap (fun k =>
      ((frontierAt g root (k + 1)).sort (fun a b => a ≤ b)).map
        (fun v => (v, k + 1))))
  else
    .error ("Service " ++ (root ++ " not found"))

/-- `v` is reachable from the root in exactly `k` dependency hops
(walking incoming edges). -/
def ReachN (g : Graph) (root : String) : Nat → String → Prop
  | 0, v => v = root
  | k + 1, v => ∃ u, ReachN g root k u ∧ v ∈ dependents g u

/-- `k` is the shortest-path hop distance of `v` from the root. -/
def IsDist (g : Graph) (root v : String) (k : Nat) : Prop :=
  ReachN g root k v ∧ ∀ j < k, ¬ ReachN g root j v

theorem frontierAt_succ (g : Graph) (root : String) (k : Nat) :
    frontierAt g root (k + 1) =
      ((frontierAt g root k).biUnion (fun v => depsFinset g v)) \
        seenAt g root k := rfl

theorem seenAt_succ (g : Graph) (root : String) (k : Nat) :
    seenAt g root (k + 1) = seenAt g root k ∪ frontierAt g root (k + 1) := rfl

theorem exists_isDist_of_reach (g : Graph) (root : String) :
    ∀ j v, ReachN g root j v → ∃ j2, j2 ≤ j ∧ IsDist g root v j2 := by
  intro j
  induction j using Nat.strong_induction_on with
  | _ j ih =>
    intro v hr
    by_cases h : ∀ j2, j2 < j → ¬ ReachN g root j2 v
    · exact ⟨j, le_refl j, hr, h⟩
    · push_neg at h
      obtain ⟨j2, hlt, hr2⟩ := h
      obtain ⟨j3, hle, hd⟩ := ih j2 hlt v hr2
      exact ⟨j3, le_trans hle (le_of_lt hlt), hd⟩

theorem isDist_unique (g : Graph) (root v : String) (j k : Nat)
    (hj : IsDist g root v j) (hk : IsDist g root v k) : j = k := by
  rcases lt_trichotomy j k with h | h | h
  · exact absurd hj.1 (hk.2 j h)
  · exact h
  · exact absurd hk.1 (hj.2 k h)

theorem bfs_invariant (g : Graph) (root : String) : ∀ k : Nat,
    (∀ v, v ∈ frontierAt g root k ↔ IsDist g root v k) ∧
    (∀ v, v ∈ seenAt g root k ↔ ∃ j, j ≤ k ∧ IsDist g root v j) := by
  intro k
  induction k with
  | zero =>
    constructor
    · intro v
      show v ∈ ({root} : Finset String) ↔ _
      rw [Finset.mem_singleton]
      constructor
      · intro hv
        exact ⟨hv, by omega⟩
      · intro hv
        exact hv.1
    · intro v
      show v ∈ ({root} : Finset String) ↔ _
      rw [Finset.mem_singleton]
      constructor
      · intro hv
        exact ⟨0, le_refl 0, hv, by omega⟩
      · rintro ⟨j, hj, hd⟩
        interval_cases j
        exact hd.1
  | succ k ih =>
    obtain ⟨ihf, ihs⟩ := ih
    have hfr : ∀ v, v ∈ frontierAt g root (k + 1) ↔ IsDist g root v (k + 1) := by
      intro v
      rw [frontierAt_succ, Finset.mem_sdiff, Finset.mem_biUnion]
      constructor
      · rintro ⟨⟨u, hu, hv⟩, hnot⟩
        have hdu := (ihf u).mp hu
        have hreach : ReachN g root (k + 1) v :=
          ⟨u, hdu.1, by simpa [depsFinset, List.mem_toFinset] using hv⟩
        refine ⟨hreach, ?_⟩
        intro j hj hrj
        obtain ⟨j2, hle, hd2⟩ := exists_isDist_of_reach g root j v hrj
        exact hnot ((ihs v).mpr ⟨j2, by omega, hd2⟩)
      · rintro ⟨⟨u, hru, hvdep⟩, hmin⟩
        constructor
        · refine ⟨u, (ihf u).mpr ⟨hru, ?_⟩,
            by simpa [depsFinset, List.mem_toFinset] using hvdep⟩
          intro j hj hrj
          exact hmin (j + 1) (by omega) ⟨u, hrj, hvdep⟩
        · intro hmem
          obtain ⟨j, hle, hd⟩ := (ihs v).mp hmem
          exact hmin j (by omega) hd.1
    refine ⟨hfr, ?_⟩
    intro v
    rw [seenAt_succ, Finset.mem_union]
    constructor
    · rintro (h | h)
      · obtain ⟨j, hle, hd⟩ := (ihs v).mp h
        exact ⟨j, by omega, hd⟩
      · exact ⟨k + 1, le_refl _, (hfr v).mp h⟩
    · rintro ⟨j, hle, hd⟩
      by_cases hj : j ≤ k
      · exact Or.inl ((ihs v).mpr ⟨j, hj, hd⟩)
      · have : j = k + 1 := by omega
        subst this
        exact Or.inr ((hfr v).mpr hd)

theorem mem_dependents (g : Graph) (u x : String) :
    x ∈ dependents g u ↔ ∃ e ∈ g.edges, e.2 = u ∧ e.1 = x := by
  rw [dependents]
  constructor
  · intro hx
    obtain ⟨e, he, hex⟩ := List.mem_map.mp hx
    have he2 := List.mem_filter.mp he
    exact ⟨e, he2.1, by simpa using he2.2, hex⟩
  · rintro ⟨e, he, heu, hex⟩
    exact List.mem_map.mpr ⟨e, List.mem_filter.mpr ⟨he, by simpa using heu⟩, hex⟩

theorem bfs_subset_services (g : Graph) (root : String)
    (hroot : root ∈ g.services)
    (hwf : ∀ e ∈ g.edges, e.1 ∈ g.services ∧ e.2 ∈ g.services) : ∀ k : Nat,
    seenAt g root k ⊆ g.services.toFinset ∧
    frontierAt g root k ⊆ g.services.toFinset := by
  have hdeps : ∀ u, depsFinset g u ⊆ g.services.toFinset := by
    intro u x hx
    rw [depsFinset, List.mem_toFinset] at hx
    obtain ⟨e, he, heu, hex⟩ := (mem_dependents g u x).mp hx
    rw [List.mem_toFinset]
    rw [← hex]
    exact (hwf e he).1
  intro k
  induction k with
  | zero =>
    refine ⟨?_, ?_⟩ <;> intro x hx
    · have hx2 : x ∈ ({root} : Finset String) := hx
      rw [Finset.mem_singleton] at hx2
      subst hx2
      exact List.mem_toFinset.mpr hroot
    · have hx2 : x ∈ ({root} : Finset String) := hx
      rw [Finset.mem_singleton] at hx2
      subst hx2
      exact List.mem_toFinset.mpr hroot
  | succ k ih =>
    have hfr : frontierAt g root (k + 1) ⊆ g.services.toFinset := by
      intro x hx
      rw [frontierAt_succ, Finset.mem_sdiff, Finset.mem_biUnion] at hx
      obtain ⟨⟨u, hu, hxu⟩, hnot⟩ := hx
      exact hdeps u hxu
    constructor
    · rw [seenAt_succ]
      exact Finset.union_subset ih.1 hfr
    · exact hfr

theorem frontier_empty_mono (g : Graph) (root : String) : ∀ j k : Nat, j ≤ k →
    frontierAt g root j = ∅ → frontierAt g root k = ∅ := by
  intro j k hjk hj
  induction k with
  | zero =>
    have : j = 0 := by omega
    subst this
    exact hj
  | succ k ih =>
    by_cases hjk2 : j ≤ k
    · have hk := ih hjk2
      rw [frontierAt_succ, hk]
      simp
    · have : j = k + 1 := by omega
      subst this
      exact hj

theorem seen_card_ge (g : Graph) (root : String) : ∀ k : Nat,
    frontierAt g root k ≠ ∅ → k + 1 ≤ (seenAt g root k).card := by
  intro k
  induction k with
  | zero =>
    intro hk
    rw [show seenAt g root 0 = ({root} : Finset String) from rfl]
    simp
  | succ k ih =>
    intro hk
    have hprev : frontierAt g root k ≠ ∅ := by
      intro hempty
      exact hk (frontier_empty_mono g root k (k + 1) (by omega) hempty)
    have hdisj : Disjoint (seenAt g root k) (frontierAt g root (k + 1)) := by
      rw [frontierAt_succ]
      exact Finset.disjoint_sdiff
    rw [seenAt_succ, Finset.card_union_of_disjoint hdisj]
    have hpos : 0 < (frontierAt g root (k + 1)).card :=
      Finset.card_pos.mpr (Finset.nonempty_iff_ne_empty.mpr hk)
    have := ih hprev
    omega

theorem isDist_le_services_length (g : Graph) (root v : String) (d : Nat)
    (hroot : root ∈ g.services)
    (hwf : ∀ e ∈ g.edges, e.1 ∈ g.services ∧ e.2 ∈ g.services)
    (hd : IsDist g root v d) : d + 1 ≤ g.services.length := by
  have hvfr : v ∈ frontierAt g root d :=
    ((bfs_invariant g root d).1 v).mpr hd
  have hne : frontierAt g root d ≠ ∅ := by
    intro hempty
    rw [hempty] at hvfr
    exact absurd hvfr (Finset.not_mem_empty v)
  calc d + 1 ≤ (seenAt g root d).card := seen_card_ge g root d hne
    _ ≤ g.services.toFinset.card :=
        Finset.card_le_card (bfs_subset_services g root hroot hwf d).1
    _ ≤ g.services.length := List.toFinset_card_le g.services

theorem nodup_flatMap {α β : Type} (l : List α) (f : α → List β)
    (hnd : ∀ a ∈ l, (f a).Nodup)
    (hdisj : l.Pairwise (fun a b => ∀ x ∈ f a, x ∉ f b)) :
    (l.flatMap f).Nodup := by
  induction l with
  | nil => simp
  | cons a t ih =>
    rw [List.flatMap_cons, List.nodup_append]
    obtain ⟨hhead, htail⟩ := List.pairwise_cons.mp hdisj
    refine ⟨hnd a (List.mem_cons_self _ _),
      ih (fun b hb => hnd b (List.mem_cons_of_mem _ hb)) htail, ?_⟩
    intro x hx hx2
    obtain ⟨b, hb, hxb⟩ := List.mem_flatMap.mp hx2
    exact hhead b hb x hx hxb

theorem pairwise_flatMap {α β : Type} (R : β → β → Prop) (l : List α)
    (f : α → List β)
    (hcross : l.Pairwise (fun a b => ∀ x ∈ f a, ∀ y ∈ f b, R x y))
    (hin : ∀ a ∈ l, (f a).Pairwise R) :
    (l.flatMap f).Pairwise R := by
  induction l with
  | nil => simp
  | cons a t ih =>
    rw [List.flatMap_cons, List.pairwise_append]
    obtain ⟨hhead, htail⟩ := List.pairwise_cons.mp hcross
    refine ⟨hin a (List.mem_cons_self _ _),
      ih htail (fun b hb => hin b (List.mem_cons_of_mem _ hb)), ?_⟩
    intro x hx y hy
    obtain ⟨b, hb, hyb⟩ := List.mem_flatMap.mp hy
    exact hhead b hb x hx y hyb

/-- C7 (spec-modelled): `calculate_blast_radius` fails with the
not-found error when the root service is absent; otherwise it returns
the transitive dependents with no duplicate service names, each paired
with exactly its shortest-path hop distance (sound and complete, even
on cyclic graphs), ordered ascending by hop count and then by service
name. -/
theorem c7_theorem (g : Graph) (root : String)
    (hwf : ∀ e ∈ g.edges, e.1 ∈ g.services ∧ e.2 ∈ g.services) :
    (root ∉ g.services →
      calculate_blast_radius g root =
        .error ("Service " ++ (root ++ " not found"))) ∧
    (root ∈ g.services → ∃ out,
      calculate_blast_radius g root = .ok out ∧
      (out.map Prod.fst).Nodup ∧
      (∀ p ∈ out, p.1 ≠ root ∧ IsDist g root p.1 p.2) ∧
      (∀ v k, IsDist g root v k → v ≠ root → (v, k) ∈ out) ∧
      out.Pairwise (fun p q => p.2 < q.2 ∨ (p.2 = q.2 ∧ p.1 ≤ q.1))) := by
  constructor
  · intro h
    simp only [calculate_blast_radius]
    rw [if_neg h]
  · intro hroot
    have hout : calculate_blast_radius g root =
        .ok ((List.range g.services.length).flatMap (fun k =>
          ((frontierAt g root (k + 1)).sort (fun a b => a ≤ b)).map
            (fun v => (v, k + 1)))) := by
      simp only [calculate_blast_radius]
      rw [if_pos hroot]
    have hmem : ∀ (v : String) (h : Nat),
        (v, h) ∈ (List.range g.services.length).flatMap (fun k =>
          ((frontierAt g root (k + 1)).sort (fun a b => a ≤ b)).map
            (fun v => (v, k + 1))) ↔
        ∃ k, k < g.services.length ∧ v ∈ frontierAt g root (k + 1) ∧
          h = k + 1 := by
      intro v h
      rw [List.mem_flatMap]
      constructor
      · rintro ⟨k, hk, hmem2⟩
        obtain ⟨w, hw, hweq⟩ := List.mem_map.mp hmem2
        injection hweq with h1 h2
        rw [List.mem_range] at hk
        rw [Finset.mem_sort] at hw
        exact ⟨k, hk, h1 ▸ hw, h2.symm⟩
      · rintro ⟨k, hk, hv, hh⟩
        exact ⟨k, List.mem_range.mpr hk,
          List.mem_map.mpr ⟨v, (Finset.mem_sort _).mpr hv, by rw [hh]⟩⟩
    have hd0 : IsDist g root root 0 := ⟨rfl, by omega⟩
    refine ⟨_, hout, ?_, ?_, ?_, ?_⟩
    · -- no duplicate service names
      rw [List.map_flatMap]
      have hsimp : ∀ k : Nat, List.map Prod.fst
          (((frontierAt g root (k + 1)).sort (fun a b => a ≤ b)).map
            (fun v => (v, k + 1))) =
          (frontierAt g root (k + 1)).sort (fun a b => a ≤ b) := by
        intro k
        rw [List.map_map]
        exact List.map_id _
      simp only [hsimp]
      refine nodup_flatMap _ _ (fun a _ => Finset.sort_nodup _ _) ?_
      refine (List.pairwise_lt_range _).imp ?_
      intro a b hab x hxa hxb
      rw [Finset.mem_sort] at hxa hxb
      have hda := ((bfs_invariant g root (a + 1)).1 x).mp hxa
      have hdb := ((bfs_invariant g root (b + 1)).1 x).mp hxb
      have := isDist_unique g root x _ _ hda hdb
      omega
    · -- soundness: every row carries the shortest-path distance
      rintro ⟨v, h⟩ hp
      obtain ⟨k, hk, hv, hh⟩ := (hmem v h).mp hp
      subst hh
      have hd := ((bfs_invariant g root (k + 1)).1 v).mp hv
      refine ⟨?_, hd⟩
      intro hvr
      have hvr2 : v = root := hvr
      rw [hvr2] at hd
      have := isDist_unique g root root _ _ hd hd0
      omega
    · -- completeness: every transitive dependent appears
      intro v k hdk hne
      rcases k with _ | k2
      · exact absurd hdk.1 hne
      · have hb := isDist_le_services_length g root v (k2 + 1) hroot hwf hdk
        exact (hmem v (k2 + 1)).mpr ⟨k2, by omega,
          ((bfs_invariant g root (k2 + 1)).1 v).mpr hdk, rfl⟩
    · -- ordering: ascending by hop count then by name
      refine pairwise_flatMap _ _ _ ?_ ?_
      · refine (List.pairwise_lt_range _).imp ?_
        intro a b hab x hxa y hyb
        obtain ⟨w, hw, hweq⟩ := List.mem_map.mp hxa
        obtain ⟨w2, hw2, hweq2⟩ := List.mem_map.mp hyb
        rw [← hweq, ← hweq2]
        exact Or.inl (by omega)
      · intro a _
        rw [List.pairwise_map]
        refine (Finset.sort_sorted (fun x y : String => x ≤ y) _).imp ?_
        intro x y hxy
        exact Or.inr ⟨rfl, hxy⟩

/-- A concrete cyclic topology for the witness: `orders` depends on
`checkout`, `payments` on `orders`, `checkout` on `payments` (closing a
cycle through the root), and `web` on `orders`. -/
def g_demo : Graph :=
  { services := ["checkout", "orders", "payments", "web"]
    edges := [("orders", "checkout"), ("payments", "orders"),
      ("checkout", "payments"), ("web", "orders")] }

/-- C7 witness: the theorem applied to the cyclic `g_demo`, both for a
present root (`checkout`) and for an absent one (`ghost`). -/
theorem c7_witness :
    ((∀ e ∈ g_demo.edges, e.1 ∈ g_demo.services ∧ e.2 ∈ g_demo.services) ∧
      ("checkout" : String) ∈ g_demo.services ∧
      ("ghost" : String) ∉ g_demo.services) ∧
    (calculate_blast_radius g_demo "ghost" =
      .error ("Service " ++ ("ghost" ++ " not found"))) ∧
    (∃ out, calculate_blast_radius g_demo "checkout" = .ok out ∧
      (out.map Prod.fst).Nodup ∧
      (∀ p ∈ out, p.1 ≠ "checkout" ∧ IsDist g_demo "checkout" p.1 p.2) ∧
      (∀ v k, IsDist g_demo "checkout" v k → v ≠ "checkout" → (v, k) ∈ out) ∧
      out.Pairwise (fun p q => p.2 < q.2 ∨ (p.2 = q.2 ∧ p.1 ≤ q.1))) :=
  ⟨⟨by decide, by decide, by decide⟩,
   (c7_theorem g_demo "ghost" (by decide)).1 (by decide),
   (c7_theorem g_demo "checkout" (by decide)).2 (by decide)⟩

end NexusZero
